import Mathlib

/-!
Verification development for the question-paper-generator repository.

Shallow embedding of the core subsystems:
* `src/llm_utils.py` — the structured-response recovery chain
  (`process_llm_response`, `parse_json_response` and its helper strategies);
* `src/robust_tikz_renderer.py` — the TikZ rendering pipeline
  (`RobustTikZRenderer.render` and `RobustTikZValidator.validate`);
* `src/validator.py` — `SolvabilityChecker.check`;
* `src/pipeline.py` — the orchestrator (`Pipeline.run`,
  `Pipeline._render_diagrams_parallel`, `Pipeline._render_single_diagram`);
* `src/pdf_builder.py` — `PDFBuilder.build_pdf` (manifest contents);
* `src/config.py` — the constants `PATTERNS_PER_TOPIC`, `QUESTIONS_PER_PATTERN`.

Python strings are modelled as `List Char`; Python `int` as `Nat`/`Int`;
Python `float` as `ℚ`; fallible code as `Except`/`Option`.  Filesystem,
subprocess and clock effects are modelled by explicit oracle structures
passed to the embedded functions.
-/

/-- Python `str` modelled as a list of characters. -/
abbrev Str := List Char

/-- Literal conversion from a Lean string. -/
def pstr (s : String) : Str := s.data

/-- Python whitespace for `str.strip` / regex `\s` (ASCII part). -/
def isPyWS (c : Char) : Bool :=
  c = ' ' ∨ c = '\t' ∨ c = '\n' ∨ c = '\r' ∨ c = '\x0b' ∨ c = '\x0c'

/-- Python `str.strip()` (no argument): drop whitespace from both ends. -/
def pyStrip (s : Str) : Str :=
  ((s.dropWhile isPyWS).reverse.dropWhile isPyWS).reverse

/-- Python `str.lower()` (ASCII-faithful). -/
def pyLower (s : Str) : Str := s.map Char.toLower

/-- Does `s` start with `p`?  (Python `str.startswith`.) -/
def startsW : Str → Str → Bool
  | _, [] => true
  | [], _ :: _ => false
  | c :: cs, p :: ps => c = p && startsW cs ps

/-- Python `needle in hay` substring containment. -/
def hasSub : Str → Str → Bool
  | [], needle => needle = []
  | c :: cs, needle => startsW (c :: cs) needle || hasSub cs needle

/-- Number of occurrences of a character (Python `str.count` for 1-char arg). -/
def countChar (c : Char) (s : Str) : Nat := s.countP (fun x => x = c)

/-- Decimal representation of a natural number, as a `Str`. -/
def natStr (n : Nat) : Str := (Nat.repr n).data

/-- Python `str.split(sep)` with a non-empty substring separator.
`fuel` bounds recursion; the wrapper supplies `hay.length + 1`. -/
def splitSubGo (sep : Str) (fuel : Nat) (hay : Str) (acc : Str) : List Str :=
  match fuel with
  | 0 => [acc.reverse]
  | fuel + 1 =>
    match hay with
    | [] => [acc.reverse]
    | c :: cs =>
      if startsW (c :: cs) sep then
        acc.reverse :: splitSubGo sep fuel (hay.drop sep.length) []
      else
        splitSubGo sep fuel cs (c :: acc)

/-- Python `str.split(sep)` (sep non-empty, as in the source). -/
def splitSub (sep hay : Str) : List Str := splitSubGo sep (hay.length + 1) hay []

/-- Python `str.replace(old, new)` with non-empty `old`.
Left-to-right, non-overlapping. -/
def replaceSubGo (old new : Str) (fuel : Nat) (s : Str) : Str :=
  match fuel with
  | 0 => s
  | fuel + 1 =>
    match s with
    | [] => []
    | c :: cs =>
      if startsW (c :: cs) old then
        new ++ replaceSubGo old new fuel (s.drop old.length)
      else
        c :: replaceSubGo old new fuel cs

/-- Python `str.replace(old, new)` (old non-empty, as in the source). -/
def replaceSub (old new s : Str) : Str := replaceSubGo old new (s.length + 1) s

/-- Python `str.join`: join a list of strings with a separator. -/
def joinSep (sep : Str) : List Str → Str
  | [] => []
  | [s] => s
  | s :: rest => s ++ sep ++ joinSep sep rest

/-- Python `str.rstrip(chars)`: drop trailing characters from the set. -/
def rstripSet (chars : Str) (s : Str) : Str :=
  (s.reverse.dropWhile (fun c => chars.contains c)).reverse

/-!
## Data model (src/schemas.py)

Only the fields the verified code paths read are carried; `variables` is a
`Dict[str, Any]` in the source, modelled as an association list of the
variable name and the `str()` form of its value (only key membership, key
count and the stringified value are ever used).
-/

/-- `schemas.Question` (alias `QuestionInstance`). -/
structure Question where
  instance_id : Nat
  pattern_id : Nat
  topic : Str
  question_text : Str
  correct_answer : Str
  tikz_code : Str
  difficulty : Str
  solvability_check : Str
  «variables» : List (Str × Str)
deriving Repr, DecidableEq

/-- `schemas.QuestionSet`. -/
structure QuestionSet where
  pattern_id : Nat
  pattern_name : Str
  questions : List Question
  topic : Str
deriving Repr, DecidableEq

/-- `schemas.RenderedDiagram`. -/
structure RenderedDiagram where
  tikz_code : Str
  pdf_path : Str
  png_path : Str
  render_time : ℚ
  success : Bool
  error_message : Option Str
deriving Repr, DecidableEq

/-- `schemas.PDFPage`. -/
structure PDFPage where
  page_number : Nat
  question_id : Nat
  question_text : Str
  tikz_code : Str
  answer : Str
  image_path : Str
deriving Repr, DecidableEq

/-- `schemas.PatternPDF`. -/
structure PatternPDF where
  pattern_id : Nat
  pattern_name : Str
  pdf_path : Str
  pages : List PDFPage
  generation_time : ℚ
deriving Repr, DecidableEq

/-- `schemas.OutputManifest`. -/
structure OutputManifest where
  topic : Str
  total_patterns : Nat
  total_questions : Nat
  pdfs : List PatternPDF
  diagrams_dir : Str
  output_dir : Str
  generation_timestamp : Str
deriving Repr, DecidableEq

/-- `config.PATTERNS_PER_TOPIC`. -/
def PATTERNS_PER_TOPIC : Nat := 10

/-- `config.QUESTIONS_PER_PATTERN`. -/
def QUESTIONS_PER_PATTERN : Nat := 10

/-!
## `validator.SolvabilityChecker.check`
-/

namespace SolvabilityChecker

/-- `SolvabilityChecker.check(question) -> (status, error_message)`.
Transliterated from `src/validator.py` lines 112-158; the branches that
only emit `logger.warning` do not affect the returned value and are
omitted as log-only. -/
def check (q : Question) : Str × Option Str :=
  let answer := pyStrip q.correct_answer
  if answer = [] ∨ pyLower answer = pstr "unknown" ∨ pyLower answer = pstr "n/a" then
    (pstr "invalid", some (pstr "Answer is empty or trivial"))
  else
    let question_text := pyStrip q.question_text
    if question_text = [] then
      (pstr "invalid", some (pstr "Question text is empty"))
    else if q.«variables».length = 0 then
      (pstr "invalid", some (pstr "No variables defined"))
    else if answer.length < 2 then
      (pstr "invalid", some (pstr "Answer too short"))
    else
      (pstr "valid", none)

end SolvabilityChecker

/-- The condition under which the code's solvability heuristic returns
`invalid` (used to state the amended claim). -/
def solvInvalidCond (q : Question) : Prop :=
  (pyStrip q.correct_answer = [] ∨
    pyLower (pyStrip q.correct_answer) = pstr "unknown" ∨
    pyLower (pyStrip q.correct_answer) = pstr "n/a") ∨
  pyStrip q.question_text = [] ∨
  q.«variables» = [] ∨
  (pyStrip q.correct_answer).length < 2

instance (q : Question) : Decidable (solvInvalidCond q) := by
  unfold solvInvalidCond; infer_instance

/-- The condition stated by the claim (spec words): invalid exactly when the
answer is empty, a placeholder, or shorter than 2 characters. -/
def specSolvInvalidCond (q : Question) : Prop :=
  pyStrip q.correct_answer = [] ∨
  pyLower (pyStrip q.correct_answer) = pstr "unknown" ∨
  pyLower (pyStrip q.correct_answer) = pstr "n/a" ∨
  (pyStrip q.correct_answer).length < 2

instance (q : Question) : Decidable (specSolvInvalidCond q) := by
  unfold specSolvInvalidCond; infer_instance

/-!
## `robust_tikz_renderer.RobustTikZValidator.validate`
-/

/-- Deny-list from `RobustTikZValidator.validate` (source order). -/
def robustForbiddenPatterns : List Str :=
  [pstr "\\input", pstr "\\include", pstr "\\write", pstr "\\read",
   pstr "\\openout", pstr "\\closeout", pstr "\\shell", pstr "\\immediate",
   pstr "\\def", pstr "\\xdef", pstr "\\edef", pstr "\\let",
   pstr "\\newcommand", pstr "\\renewcommand", pstr "\\usepackage",
   pstr "\\documentclass", pstr "\\begin\x7bdocument\x7d", pstr "\\end\x7bdocument\x7d"]

namespace RobustTikZValidator

/-- `RobustTikZValidator.validate(tikz_code) -> (is_valid, error_message)`,
transliterated from `src/robust_tikz_renderer.py` lines 590-625. -/
def validate (tikz_code : Str) : Bool × Option Str :=
  if tikz_code = [] ∨ (pyStrip tikz_code).length < 5 then
    (false, some (pstr "TikZ code is empty or too short"))
  else if countChar '{' tikz_code ≠ countChar '}' tikz_code then
    (false, some (pstr "Mismatched braces in TikZ code"))
  else if countChar '[' tikz_code ≠ countChar ']' tikz_code then
    (false, some (pstr "Mismatched brackets in TikZ code"))
  else
    match robustForbiddenPatterns.find? (fun p => hasSub (pyLower tikz_code) p) with
    | some p => (false, some (pstr "Forbidden pattern detected: " ++ p))
    | none =>
      if ¬ ([pstr "\\draw", pstr "\\node", pstr "\\coordinate", pstr "\\path"].any
            (fun k => hasSub (pyLower tikz_code) k)) then
        (false, some (pstr "No TikZ drawing commands found"))
      else
        (true, none)

end RobustTikZValidator

/-!
## `robust_tikz_renderer.RobustTikZRenderer` — TikZ cleaning (step 1)

The regex substitutions of `_clean_tikz_code` are embedded as explicit
left-to-right scanners with the same match/replace semantics.
-/

/-- Generic left-to-right, non-overlapping regex-substitution scanner:
`try` attempts a match at the current position and returns the replacement
together with the rest of the input after the match. -/
def regexSubGo (tryM : Str → Option (Str × Str)) (fuel : Nat) (s : Str) : Str :=
  match fuel with
  | 0 => s
  | fuel + 1 =>
    match s with
    | [] => []
    | c :: cs =>
      match tryM (c :: cs) with
      | some (repl, rest) => repl ++ regexSubGo tryM fuel rest
      | none => c :: regexSubGo tryM fuel cs

/-- Run a substitution scanner over the whole string. -/
def regexSub (tryM : Str → Option (Str × Str)) (s : Str) : Str :=
  regexSubGo tryM (s.length + 1) s

/-- Match attempt for `re.sub(r'(\d+\.?\d*)°', r'$\1^\\circ$', ...)`:
digits, an optional dot (kept only if the degree sign still follows,
mirroring regex backtracking), more digits, then `°`. -/
def degreeTry (s : Str) : Option (Str × Str) :=
  let ds := s.takeWhile Char.isDigit
  if ds = [] then none
  else
    let r1 := s.drop ds.length
    match r1 with
    | '.' :: r2 =>
      let ds2 := r2.takeWhile Char.isDigit
      let r3 := r2.drop ds2.length
      match r3 with
      | '°' :: r4 => some (pstr "$" ++ ds ++ pstr "." ++ ds2 ++ pstr "^\\circ$", r4)
      | _ => none
    | '°' :: r2 => some (pstr "$" ++ ds ++ pstr "^\\circ$", r2)
    | _ => none

/-- The Greek-letter replacement table of `_clean_tikz_code` (source order). -/
def greekMap : List (Char × Str) :=
  [('α', pstr "$\\alpha$"), ('β', pstr "$\\beta$"), ('γ', pstr "$\\gamma$"),
   ('δ', pstr "$\\delta$"), ('ε', pstr "$\\epsilon$"), ('ζ', pstr "$\\zeta$"),
   ('η', pstr "$\\eta$"), ('θ', pstr "$\\theta$"), ('ι', pstr "$\\iota$"),
   ('κ', pstr "$\\kappa$"), ('λ', pstr "$\\lambda$"), ('μ', pstr "$\\mu$"),
   ('ν', pstr "$\\nu$"), ('ξ', pstr "$\\xi$"), ('π', pstr "$\\pi$"),
   ('ρ', pstr "$\\rho$"), ('σ', pstr "$\\sigma$"), ('τ', pstr "$\\tau$"),
   ('υ', pstr "$\\upsilon$"), ('φ', pstr "$\\phi$"), ('χ', pstr "$\\chi$"),
   ('ψ', pstr "$\\psi$"), ('ω', pstr "$\\omega$")]

/-- Match attempt for the unit patterns, e.g.
`re.sub(r'\{([0-9]+\.[0-9]+)\s*cm\}', r'{$\1$ cm}', ...)`;
`withDot` selects between the `[0-9]+\.[0-9]+` and `[0-9]+` variants. -/
def unitTry (withDot : Bool) (unit : Str) (s : Str) : Option (Str × Str) :=
  match s with
  | '{' :: r1 =>
    let ds := r1.takeWhile Char.isDigit
    if ds = [] then none
    else
      let r2 := r1.drop ds.length
      let numAndRest : Option (Str × Str) :=
        if withDot then
          match r2 with
          | '.' :: r3 =>
            let ds2 := r3.takeWhile Char.isDigit
            if ds2 = [] then none
            else some (ds ++ pstr "." ++ ds2, r3.drop ds2.length)
          | _ => none
        else some (ds, r2)
      match numAndRest with
      | none => none
      | some (num, r4) =>
        let r5 := r4.dropWhile isPyWS
        if startsW r5 unit then
          match r5.drop unit.length with
          | '}' :: r6 => some (pstr "\x7b$" ++ num ++ pstr "$ " ++ unit ++ pstr "\x7d", r6)
          | _ => none
        else none
  | _ => none

/-- Match attempt for `re.sub(r'\s+ext\{', r' \\text{', ...)`. -/
def extWsTry (s : Str) : Option (Str × Str) :=
  let ws := s.takeWhile isPyWS
  if ws = [] then none
  else if startsW (s.drop ws.length) (pstr "ext\x7b") then
    some (pstr " \\text\x7b", (s.drop ws.length).drop 4)
  else none

/-- Match attempt for `re.sub(r',\s*ext\{', r', \\text{', ...)`. -/
def extCommaTry (s : Str) : Option (Str × Str) :=
  match s with
  | ',' :: r1 =>
    let r2 := r1.dropWhile isPyWS
    if startsW r2 (pstr "ext\x7b") then some (pstr ", \\text\x7b", r2.drop 4) else none
  | _ => none

/-- `RobustTikZRenderer._clean_tikz_code`, transliterated from
`src/robust_tikz_renderer.py` lines 472-517. -/
def cleanTikzCode (tikz_code : Str) : Str :=
  let t := pyStrip tikz_code
  let t := replaceSub (pstr "\\\\") (pstr "\\") t
  let t := regexSub degreeTry t
  let t := greekMap.foldl (fun s p => replaceSub [p.1] p.2 s) t
  let t := regexSub (unitTry true (pstr "cm")) t
  let t := regexSub (unitTry false (pstr "cm")) t
  let t := regexSub (unitTry true (pstr "units")) t
  let t := regexSub (unitTry false (pstr "units")) t
  let t := regexSub extWsTry t
  let t := regexSub extCommaTry t
  t

/-- Deny-list of `RobustTikZRenderer._validate_tikz_code` (source order;
shorter than the `RobustTikZValidator` list). -/
def rendererForbiddenPatterns : List Str :=
  [pstr "\\input", pstr "\\include", pstr "\\write", pstr "\\read",
   pstr "\\openout", pstr "\\closeout", pstr "\\shell", pstr "\\immediate",
   pstr "\\def", pstr "\\xdef", pstr "\\edef", pstr "\\let",
   pstr "\\newcommand", pstr "\\renewcommand"]

/-- `RobustTikZRenderer._validate_tikz_code`, lines 519-541. -/
def validateTikzInternal (tikz_code : Str) : Bool × Option Str :=
  if tikz_code = [] ∨ (pyStrip tikz_code).length < 5 then
    (false, some (pstr "TikZ code is empty or too short"))
  else if countChar '{' tikz_code ≠ countChar '}' tikz_code then
    (false, some (pstr "Mismatched braces in TikZ code"))
  else
    match rendererForbiddenPatterns.find? (fun p => hasSub (pyLower tikz_code) p) with
    | some p => (false, some (pstr "Forbidden pattern detected: " ++ p))
    | none => (true, none)

/-- `RobustTikZRenderer._generate_clean_tikz_code` (step 1), lines 176-205.
The empty/short check raises `ValueError`, which the function's own
handler converts into an error entry while returning the original code. -/
def generateCleanTikzCode (tikz_code : Str) : Str × List Str :=
  if tikz_code = [] ∨ (pyStrip tikz_code).length < 5 then
    (tikz_code, [pstr "TikZ code cleaning failed: TikZ code is empty or too short"])
  else
    let cleaned := cleanTikzCode tikz_code
    match validateTikzInternal cleaned with
    | (false, some e) => (cleaned, [pstr "TikZ validation warning: " ++ e])
    | (false, none) => (cleaned, [pstr "TikZ validation warning: None"])
    | (true, _) => (cleaned, [])

/-!
## `robust_tikz_renderer.RobustTikZRenderer` — effectful stages

Filesystem, subprocess and clock behaviour is supplied by a `RenderWorld`
oracle; each stage function transliterates its Python counterpart's
control flow over the oracle's per-attempt outcomes.
-/

/-- Outcome of one attempt of `_write_standalone_tex_file`: either the
write raised, or a file came into being with the given existence/size. -/
inductive TexAttempt where
  | exn (msg : Str)
  | written (fileExists : Bool) (size : Nat)
deriving Repr, DecidableEq

/-- Outcome of one attempt of `_compile_with_tectonic`: an exception before
the subprocess call (e.g. the `unlink`), a subprocess timeout, or a
completed subprocess run with exit code, stderr and the state of the
produced PDF. -/
inductive TectonicAttempt where
  | preExn (msg : Str)
  | timeout
  | run (returncode : Int) (stderr : Str) (pdfExists : Bool) (pdfSize : Nat)
deriving Repr, DecidableEq

/-- Outcome of one attempt of `_convert_to_png_with_pypdfium2`, tagged by
the step inside the attempt at which it failed (each tag produces the
corresponding error-message format of the source). -/
inductive PngAttempt where
  | stageExn (msg : Str)
  | openFail (msg : Str)
  | pageFail (msg : Str)
  | renderFail (msg : Str)
  | saveFail (msg : Str)
  | ok
deriving Repr, DecidableEq

/-- What PIL sees when `_validate_final_png` re-opens the written image. -/
inductive PilCheck where
  | pilExn (msg : Str)
  | img (width height : Nat) (mode : Str)
deriving Repr, DecidableEq

/-- Filesystem state of the final PNG for `_validate_final_png`. -/
inductive PngStat where
  | missing
  | stat (size : Nat) (pil : PilCheck)
deriving Repr, DecidableEq

/-- Oracle for the external effects of one `render` call. -/
structure RenderWorld where
  texAttempt : Nat → TexAttempt
  timestamp : Nat → Nat
  tectonicAttempt : Nat → TectonicAttempt
  pngAttempt : Nat → PngAttempt
  finalPng : PngStat
  elapsed : ℚ

/-- The renderer-relevant configuration (`RobustTikZRenderer.__init__`). -/
structure RendererConfig where
  temp_dir : Str
  dpi : Nat
  keep_intermediate : Bool
  max_retries : Nat
deriving Repr, DecidableEq

/-- Scratch-file name `f"tikz_render_{timestamp}_{attempt}.tex"` joined to
the temp directory. -/
def texFileName (cfg : RendererConfig) (w : RenderWorld) (attempt : Nat) : Str :=
  cfg.temp_dir ++ pstr "/tikz_render_" ++ natStr (w.timestamp attempt) ++
    pstr "_" ++ natStr attempt ++ pstr ".tex"

/-- `Path.with_suffix('.pdf')` for a path ending in `.tex`. -/
def withSuffixPdf (p : Str) : Str := p.take (p.length - 4) ++ pstr ".pdf"

/-- Retry loop of `_write_standalone_tex_file` (lines 207-245): each
attempt writes the embedded document and verifies existence and non-zero
size, converting any failure into an error entry and retrying. -/
def writeTexGo (w : RenderWorld) (cfg : RendererConfig) (i remaining : Nat)
    (errs : List Str) : Option Str × List Str :=
  match remaining with
  | 0 => (none, errs)
  | remaining + 1 =>
    match w.texAttempt i with
    | .exn msg =>
      writeTexGo w cfg (i + 1) remaining
        (errs ++ [pstr "TEX file creation (attempt " ++ natStr (i + 1) ++ pstr "): " ++ msg])
    | .written fileExists size =>
      if ¬ fileExists ∨ size = 0 then
        writeTexGo w cfg (i + 1) remaining
          (errs ++ [pstr "TEX file creation (attempt " ++ natStr (i + 1) ++
            pstr "): TEX file creation failed"])
      else
        (some (texFileName cfg w i), errs)

/-- `RobustTikZRenderer._write_standalone_tex_file`; the written content
(`LATEX_TEMPLATE` with the TikZ code spliced in) lives on disk and is not
observed by the embedded control flow. -/
def writeStandaloneTexFile (w : RenderWorld) (cfg : RendererConfig) (_tikz : Str) :
    Option Str × List Str :=
  writeTexGo w cfg 0 cfg.max_retries []

/-- Retry loop of `_compile_with_tectonic` (lines 247-320).  The third
component counts subprocess invocations (`timeout` and `run` outcomes). -/
def tectonicGo (w : RenderWorld) (i remaining : Nat) (pdfPath : Str)
    (errs : List Str) (invoked : Nat) : Option Str × List Str × Nat :=
  match remaining with
  | 0 => (none, errs, invoked)
  | remaining + 1 =>
    match w.tectonicAttempt i with
    | .preExn msg =>
      tectonicGo w (i + 1) remaining pdfPath
        (errs ++ [pstr "Tectonic execution failed (attempt " ++ natStr (i + 1) ++
          pstr "): " ++ msg]) invoked
    | .timeout =>
      tectonicGo w (i + 1) remaining pdfPath
        (errs ++ [pstr "Tectonic timeout (attempt " ++ natStr (i + 1) ++ pstr ")"])
        (invoked + 1)
    | .run rc stderr pdfExists pdfSize =>
      if rc ≠ 0 then
        let errs := errs ++ [pstr "Tectonic failed (attempt " ++ natStr (i + 1) ++
          pstr "): " ++ stderr]
        let errs :=
          if hasSub stderr (pstr "Error:") then
            match (splitSub (pstr "\n") stderr).filter (fun l => hasSub l (pstr "Error:")) with
            | [] => errs
            | l :: _ => errs ++ [pstr "Specific error: " ++ pyStrip l]
          else errs
        tectonicGo w (i + 1) remaining pdfPath errs (invoked + 1)
      else if ¬ pdfExists then
        tectonicGo w (i + 1) remaining pdfPath
          (errs ++ [pstr "Tectonic completed but PDF not created (attempt " ++
            natStr (i + 1) ++ pstr ")"]) (invoked + 1)
      else if pdfSize = 0 then
        tectonicGo w (i + 1) remaining pdfPath
          (errs ++ [pstr "PDF created but empty (attempt " ++ natStr (i + 1) ++ pstr ")"])
          (invoked + 1)
      else
        (some pdfPath, errs, invoked + 1)

/-- `RobustTikZRenderer._compile_with_tectonic`. -/
def compileWithTectonic (w : RenderWorld) (cfg : RendererConfig) (texPath : Str) :
    Option Str × List Str × Nat :=
  tectonicGo w 0 cfg.max_retries (withSuffixPdf texPath) [] 0

/-- Retry loop of `_convert_to_png_with_pypdfium2` (lines 322-417). -/
def pngGo (w : RenderWorld) (i remaining : Nat) (errs : List Str) : Bool × List Str :=
  match remaining with
  | 0 => (false, errs)
  | remaining + 1 =>
    match w.pngAttempt i with
    | .stageExn msg =>
      pngGo w (i + 1) remaining
        (errs ++ [pstr "PDF to PNG conversion failed (attempt " ++ natStr (i + 1) ++
          pstr "): " ++ msg])
    | .openFail msg =>
      pngGo w (i + 1) remaining
        (errs ++ [pstr "Failed to open PDF (attempt " ++ natStr (i + 1) ++ pstr "): " ++ msg])
    | .pageFail msg =>
      pngGo w (i + 1) remaining
        (errs ++ [pstr "Failed to get PDF page (attempt " ++ natStr (i + 1) ++ pstr "): " ++ msg])
    | .renderFail msg =>
      pngGo w (i + 1) remaining
        (errs ++ [pstr "Failed to render PDF page (attempt " ++ natStr (i + 1) ++ pstr "): " ++ msg])
    | .saveFail msg =>
      pngGo w (i + 1) remaining
        (errs ++ [pstr "Failed to save PNG (attempt " ++ natStr (i + 1) ++ pstr "): " ++ msg])
    | .ok => (true, errs)

/-- `RobustTikZRenderer._convert_to_png_with_pypdfium2`. -/
def convertToPngWithPypdfium2 (w : RenderWorld) (cfg : RendererConfig) :
    Bool × List Str :=
  pngGo w 0 cfg.max_retries []

/-- One-decimal rendering of `size / 1024 / 1024` used in the
"PNG file too large" message (floor approximation of `:.1f`). -/
def mbStr (size : Nat) : Str :=
  let tenths := size * 10 / (1024 * 1024)
  natStr (tenths / 10) ++ pstr "." ++ natStr (tenths % 10)

/-- `RobustTikZRenderer._validate_final_png` (lines 419-470).  Note that an
oversized file and an unexpected colour mode append an error entry but do
not fail validation. -/
def validateFinalPng (w : RenderWorld) : Bool × List Str :=
  match w.finalPng with
  | .missing => (false, [pstr "PNG file does not exist"])
  | .stat size pil =>
    if size = 0 then (false, [pstr "PNG file is empty"])
    else
      let errs :=
        if size > 10 * 1024 * 1024 then
          [pstr "PNG file too large: " ++ mbStr size ++ pstr "MB"]
        else []
      match pil with
      | .pilExn msg => (false, errs ++ [pstr "PIL validation failed: " ++ msg])
      | .img width height mode =>
        if width = 0 ∨ height = 0 then
          (false, errs ++ [pstr "Invalid image dimensions: (" ++ natStr width ++
            pstr ", " ++ natStr height ++ pstr ")"])
        else
          let errs :=
            if ¬ ([pstr "RGB", pstr "RGBA", pstr "L"].contains mode) then
              errs ++ [pstr "Unexpected image mode: " ++ mode]
            else errs
          (true, errs)

/-!
## `RobustTikZRenderer.render` — the 5-step pipeline

The `render_metadata` dictionary has a fixed key set, modelled as the
structure `RenderMeta`; `metaEntries` is its exact dictionary view (keys
in insertion order) on which Python's `dict.get` is modelled.
-/

/-- `render_metadata` dictionary. -/
structure RenderMeta where
  success : Bool
  output_png : Str
  tikz_code : Str
  steps_completed : List Str
  errors : List Str
  warnings : List Str
  execution_time : ℚ
  intermediate_files : List (Str × Str)
deriving Repr, DecidableEq

/-- Values storable in `render_metadata`. -/
inductive PyVal where
  | vbool (b : Bool)
  | vstr (s : Str)
  | vnum (q : ℚ)
  | vlist (l : List Str)
  | vdict (d : List (Str × Str))
deriving Repr, DecidableEq

/-- Dictionary view of `render_metadata`, keys in insertion order. -/
def metaEntries (m : RenderMeta) : List (Str × PyVal) :=
  [(pstr "success", .vbool m.success),
   (pstr "output_png", .vstr m.output_png),
   (pstr "tikz_code", .vstr m.tikz_code),
   (pstr "steps_completed", .vlist m.steps_completed),
   (pstr "errors", .vlist m.errors),
   (pstr "warnings", .vlist m.warnings),
   (pstr "execution_time", .vnum m.execution_time),
   (pstr "intermediate_files", .vdict m.intermediate_files)]

/-- Association-list lookup. -/
def assocFind (k : Str) : List (Str × PyVal) → Option PyVal
  | [] => none
  | (k', v) :: rest => if k' = k then some v else assocFind k rest

/-- Python `dict.get(key, default)`. -/
def pyDictGet (d : List (Str × PyVal)) (k : Str) (dflt : PyVal) : PyVal :=
  (assocFind k d).getD dflt

/-- Read a `PyVal` where the caller expects a float. -/
def pyValAsNum : PyVal → ℚ
  | .vnum q => q
  | _ => 0

/-- The `finally` block of `render`: record the elapsed wall time
(cleanup deletes scratch files on disk, which the metadata does not
observe). -/
def renderFinally (w : RenderWorld) (m : RenderMeta) : RenderMeta :=
  { m with execution_time := w.elapsed }

/-- `RobustTikZRenderer.render` (lines 84-174): the five steps with the
outer `try/except` that converts every raised stage failure into a
`Pipeline failed:` error entry, and the `finally` block.  The second
component counts external-compiler subprocess invocations. -/
def render (w : RenderWorld) (cfg : RendererConfig) (tikz_code output_png : Str) :
    RenderMeta × Nat :=
  let m0 : RenderMeta :=
    { success := false, output_png := output_png, tikz_code := tikz_code,
      steps_completed := [], errors := [], warnings := [],
      execution_time := 0, intermediate_files := [] }
  let step1 := generateCleanTikzCode tikz_code
  let m1 := { m0 with steps_completed := m0.steps_completed ++ [pstr "tikz_code_generation"],
                      warnings := m0.warnings ++ step1.2 }
  let step2 := writeStandaloneTexFile w cfg step1.1
  let m2 := { m1 with steps_completed := m1.steps_completed ++ [pstr "tex_file_creation"],
                      intermediate_files := m1.intermediate_files ++
                        [(pstr "tex", step2.1.getD (pstr "None"))],
                      errors := m1.errors ++ step2.2 }
  match step2.1 with
  | none =>
    (renderFinally w
      { m2 with errors := m2.errors ++ [pstr "Pipeline failed: Failed to create TEX file"] }, 0)
  | some texPath =>
    let step3 := compileWithTectonic w cfg texPath
    let m3 := { m2 with steps_completed := m2.steps_completed ++ [pstr "tectonic_compilation"],
                        intermediate_files := m2.intermediate_files ++
                          (match step3.1 with
                           | some p => [(pstr "pdf", p)]
                           | none => []),
                        errors := m2.errors ++ step3.2.1 }
    match step3.1 with
    | none =>
      (renderFinally w
        { m3 with errors := m3.errors ++ [pstr "Pipeline failed: Tectonic compilation failed"] },
       step3.2.2)
    | some _ =>
      let step4 := convertToPngWithPypdfium2 w cfg
      let m4 := { m3 with steps_completed := m3.steps_completed ++ [pstr "png_conversion"],
                          errors := m3.errors ++ step4.2 }
      if ¬ step4.1 then
        (renderFinally w
          { m4 with errors := m4.errors ++ [pstr "Pipeline failed: PDF to PNG conversion failed"] },
         step3.2.2)
      else
        let step5 := validateFinalPng w
        let m5 := { m4 with steps_completed := m4.steps_completed ++ [pstr "png_validation"],
                            errors := m4.errors ++ step5.2 }
        if ¬ step5.1 then
          (renderFinally w
            { m5 with errors := m5.errors ++ [pstr "Pipeline failed: Final PNG validation failed"] },
           step3.2.2)
        else
          (renderFinally w { m5 with success := true }, step3.2.2)

/-!
## `pipeline.Pipeline` — per-diagram rendering
-/

/-- `f"{n:02d}"`. -/
def zeroPad2 (n : Nat) : Str :=
  if n < 10 then '0' :: natStr n else natStr n

/-- `Pipeline._render_single_diagram` (lines 268-302).  Returns the
`RenderedDiagram` together with the number of external-compiler
subprocess invocations it caused. -/
def renderSingleDiagram (w : RenderWorld) (cfg : RendererConfig) (diagramsDir : Str)
    (q : Question) (patternIdx : Nat) : RenderedDiagram × Nat :=
  let output_png := diagramsDir ++ pstr "/pattern_" ++ zeroPad2 patternIdx ++
    pstr "_question_" ++ zeroPad2 q.instance_id ++ pstr ".png"
  match RobustTikZValidator.validate q.tikz_code with
  | (false, err) =>
    ({ tikz_code := q.tikz_code, pdf_path := [], png_path := [],
       render_time := 0, success := false, error_message := err }, 0)
  | (true, _) =>
    let r := render w cfg q.tikz_code output_png
    ({ tikz_code := q.tikz_code,
       pdf_path := replaceSub (pstr ".png") (pstr ".pdf") output_png,
       png_path := output_png,
       render_time := pyValAsNum (pyDictGet (metaEntries r.1) (pstr "render_time") (.vnum 0)),
       success := r.1.success,
       error_message := if r.1.success then none else some (joinSep (pstr "; ") r.1.errors) },
     r.2)

/-- `Pipeline._render_diagrams_sequential` (lines 231-243); the `Option`
carries Python's `None` placeholder used by the parallel variant, so both
variants return the same type. -/
def renderDiagramsSequentialGo (rw : Nat → RenderWorld) (cfg : RendererConfig)
    (diagramsDir : Str) (patternIdx i : Nat) :
    List Question → List (Option RenderedDiagram)
  | [] => []
  | q :: rest =>
    some (renderSingleDiagram (rw i) cfg diagramsDir q patternIdx).1 ::
      renderDiagramsSequentialGo rw cfg diagramsDir patternIdx (i + 1) rest

/-- `Pipeline._render_diagrams_sequential`. -/
def renderDiagramsSequential (rw : Nat → RenderWorld) (cfg : RendererConfig)
    (diagramsDir : Str) (qs : QuestionSet) (patternIdx : Nat) :
    List (Option RenderedDiagram) :=
  renderDiagramsSequentialGo rw cfg diagramsDir patternIdx 0 qs.questions

/-- The compile result the worker pool produces for submitting index
`idx` (the body of the future submitted for question `idx`). -/
def parallelResultAt (rw : Nat → RenderWorld) (cfg : RendererConfig)
    (diagramsDir : Str) (qs : QuestionSet) (patternIdx : Nat) (idx : Nat) :
    Option RenderedDiagram :=
  match qs.questions[idx]? with
  | some q => some (renderSingleDiagram (rw idx) cfg diagramsDir q patternIdx).1
  | none => none

/-- `Pipeline._render_diagrams_parallel` (lines 245-266): `rendered`
starts as `[None] * n`; `as_completed` hands back futures in an arbitrary
completion `order`, and each result is written at the submitting index. -/
def renderDiagramsParallel (rw : Nat → RenderWorld) (cfg : RendererConfig)
    (diagramsDir : Str) (qs : QuestionSet) (patternIdx : Nat) (order : List Nat) :
    List (Option RenderedDiagram) :=
  order.foldl
    (fun rendered idx => rendered.set idx (parallelResultAt rw cfg diagramsDir qs patternIdx idx))
    (List.replicate qs.questions.length none)

/-!
## `pipeline.Pipeline.run` — the orchestrator

The LLM generators are oracles returning `Except` (their raised
exceptions propagate out of `run`, as in `_generate_patterns` /
`_generate_questions`, which log and re-raise).  Durable-storage JSON
writes are not observed by any verified property and are not modelled.
-/

/-- `schemas.QuestionPattern` (fields read by the orchestrator path; the
variable-definition list is carried opaquely by the generators and never
read by `run`). -/
structure QuestionPattern where
  pattern_id : Nat
  pattern_name : Str
  diagram_description : Str
  question_template : Str
  difficulty : Str
  learning_objective : Str
deriving Repr, DecidableEq

/-- `schemas.PatternCollection`. -/
structure PatternCollection where
  topic : Str
  patterns : List QuestionPattern
  generation_timestamp : Str
  model_used : Str
deriving Repr, DecidableEq

/-- The `PipelineConfig` fields read by `run`. -/
structure PipelineConfig where
  validate_solvability : Bool
  parallel_rendering : Bool
  output_dir : Str
  tikz : RendererConfig
deriving Repr, DecidableEq

/-- Oracle for one full `run`: the two generators, the per-(pattern,
question) rendering effects, the per-pattern worker-pool completion
order, the per-pattern `doc.build` outcome, and the manifest clock. -/
structure RunWorld where
  genPatterns : Str → Str → Nat → Except Str PatternCollection
  genQuestions : QuestionPattern → Str → Except Str QuestionSet
  renderWorld : Nat → Nat → RenderWorld
  parallelOrder : Nat → List Nat
  docBuildExn : Nat → Option Str
  timestamp : Str

/-- `self.diagrams_dir = self.output_dir / "diagrams"`. -/
def diagramsDirOf (cfg : PipelineConfig) : Str := cfg.output_dir ++ pstr "/diagrams"

/-- `Pipeline._generate_questions` (lines 184-213): generate, then — when
`validate_solvability` is set — overwrite each question's
`solvability_check` with the heuristic's status. -/
def generateQuestionsStep (w : RunWorld) (cfg : PipelineConfig)
    (pattern : QuestionPattern) (topic : Str) : Except Str QuestionSet :=
  (w.genQuestions pattern topic).map (fun qs =>
    if cfg.validate_solvability then
      { qs with questions :=
          qs.questions.map fun q =>
            { q with solvability_check := (SolvabilityChecker.check q).1 } }
    else qs)

/-- Step 2 of `run`: generate a question set per pattern, in order. -/
def questionSetsGo (w : RunWorld) (cfg : PipelineConfig) (topic : Str) :
    List QuestionPattern → Except Str (List QuestionSet)
  | [] => .ok []
  | p :: rest =>
    match generateQuestionsStep w cfg p topic with
    | .error e => .error e
    | .ok qs =>
      match questionSetsGo w cfg topic rest with
      | .error e => .error e
      | .ok more => .ok (qs :: more)

/-- `Pipeline._render_diagrams` (lines 215-229): parallel or sequential
per configuration. -/
def renderDiagramsStep (w : RunWorld) (cfg : PipelineConfig) (patternIdx : Nat)
    (qs : QuestionSet) : List (Option RenderedDiagram) :=
  if cfg.parallel_rendering then
    renderDiagramsParallel (w.renderWorld patternIdx) cfg.tikz (diagramsDirOf cfg) qs
      patternIdx (w.parallelOrder patternIdx)
  else
    renderDiagramsSequential (w.renderWorld patternIdx) cfg.tikz (diagramsDirOf cfg) qs
      patternIdx

/-- Step 3 of `run`: render each pattern's diagrams. -/
def renderAllGo (w : RunWorld) (cfg : PipelineConfig) (idx : Nat) :
    List QuestionSet → List (List (Option RenderedDiagram))
  | [] => []
  | qs :: rest => renderDiagramsStep w cfg idx qs :: renderAllGo w cfg (idx + 1) rest

/-!
## `pdf_builder.PDFBuilder.build_pdf`
-/

/-- The page list built by `build_pdf`'s main loop (lines 137-227):
every question gets a page — `rendered_diagrams[i]` raises `IndexError`
when the diagram list is shorter; a missing/failed diagram yields
`image_path = ""`. -/
def buildPagesGo (diagrams : List (Option RenderedDiagram)) :
    List Question → Nat → Except Str (List PDFPage)
  | [], _ => .ok []
  | q :: rest, i =>
    match diagrams[i]? with
    | none => .error (pstr "list index out of range")
    | some diagram =>
      match buildPagesGo diagrams rest (i + 1) with
      | .error e => .error e
      | .ok pages =>
        .ok ({ page_number := i + 1, question_id := q.instance_id,
               question_text := q.question_text, tikz_code := q.tikz_code,
               answer := q.correct_answer,
               image_path :=
                 match diagram with
                 | some d => if d.success then d.png_path else []
                 | none => [] } :: pages)

/-- `PDFBuilder.build_pdf` (lines 84-244); `docBuildExn` supplies the
outcome of the ReportLab `doc.build` call, whose exception is re-raised. -/
def buildPdf (qset : QuestionSet) (diagrams : List (Option RenderedDiagram))
    (output_pdf : Str) (docBuildExn : Option Str) : Except Str PatternPDF :=
  if qset.questions.length < 1 then
    .error (pstr "Expected at least 1 question, got " ++ natStr qset.questions.length)
  else if diagrams.length < 1 then
    .error (pstr "Expected at least 1 diagram, got " ++ natStr diagrams.length)
  else
    match buildPagesGo diagrams qset.questions 0 with
    | .error e => .error e
    | .ok pages =>
      match docBuildExn with
      | some e => .error e
      | none =>
        .ok { pattern_id := qset.pattern_id, pattern_name := qset.pattern_name,
              pdf_path := output_pdf, pages := pages, generation_time := 0 }

/-- Output path of a pattern's PDF,
`f"pattern_{pattern_idx:02d}_{pattern_name.replace(' ', '_')}.pdf"`. -/
def patternPdfPath (cfg : PipelineConfig) (idx : Nat) (qs : QuestionSet) : Str :=
  cfg.output_dir ++ pstr "/pattern_" ++ zeroPad2 idx ++ pstr "_" ++
    replaceSub (pstr " ") (pstr "_") qs.pattern_name ++ pstr ".pdf"

/-- Step 4 of `run`: one PDF per `zip(question_sets, rendered_diagrams)`
pair (`zip` stops at the shorter list, as in Python). -/
def buildAllPdfsGo (w : RunWorld) (cfg : PipelineConfig) (idx : Nat) :
    List QuestionSet → List (List (Option RenderedDiagram)) →
      Except Str (List PatternPDF)
  | qs :: qrest, d :: drest =>
    match buildPdf qs d (patternPdfPath cfg idx qs) (w.docBuildExn idx) with
    | .error e => .error e
    | .ok pdf =>
      match buildAllPdfsGo w cfg (idx + 1) qrest drest with
      | .error e => .error e
      | .ok rest => .ok (pdf :: rest)
  | _, _ => .ok []

/-- The two opening lines of `run`: `if num_patterns is None:
num_patterns = 10` followed by the unconditional `num_patterns = 10`
("Enforce exactly 10 patterns as per project requirements"). -/
def runNumPatterns (num_patterns : Option Nat) : Nat :=
  match num_patterns with
  | none => 10
  | some _ => 10

/-- `Pipeline.run` (lines 73-157). -/
def pipelineRun (w : RunWorld) (cfg : PipelineConfig) (topic grade_level : Str)
    (num_patterns : Option Nat) : Except Str OutputManifest :=
  let np := runNumPatterns num_patterns
  match w.genPatterns topic grade_level np with
  | .error e => .error e
  | .ok pattern_schema =>
    match questionSetsGo w cfg topic pattern_schema.patterns with
    | .error e => .error e
    | .ok all_question_sets =>
      let all_rendered := renderAllGo w cfg 0 all_question_sets
      match buildAllPdfsGo w cfg 0 all_question_sets all_rendered with
      | .error e => .error e
      | .ok all_pdfs =>
        .ok { topic := topic,
              total_patterns := np,
              total_questions := np * QUESTIONS_PER_PATTERN,
              pdfs := all_pdfs,
              diagrams_dir := diagramsDirOf cfg,
              output_dir := cfg.output_dir,
              generation_timestamp := w.timestamp }

/-!
## `llm_utils` — structured-response recovery

JSON documents are modelled by `JVal`; `jsonLoads` embeds the strict
parser (`json.loads`, RFC 8259) and `json5Loads` models the lenient
`json5.loads` (single quotes, unquoted identifier keys, trailing commas,
comments, extra number forms).  Number tokens are kept as their lexeme:
no verified property observes numeric values.  Parser error strings are
short descriptions, as in CPython, and never embed input content.
-/

/-- A parsed JSON document. -/
inductive JVal where
  | jnull
  | jbool (b : Bool)
  | jnum (lexeme : Str)
  | jstr (s : Str)
  | jarr (elems : List JVal)
  | jobj (fields : List (Str × JVal))
deriving Repr

/-- JSON insignificant whitespace (RFC 8259). -/
def jsonWsDrop (s : Str) : Str :=
  s.dropWhile (fun c => c = ' ' ∨ c = '\t' ∨ c = '\n' ∨ c = '\r')

/-- Hex digit value. -/
def hexVal (c : Char) : Option Nat :=
  if '0' ≤ c ∧ c ≤ '9' then some (c.toNat - '0'.toNat)
  else if 'a' ≤ c ∧ c ≤ 'f' then some (c.toNat - 'a'.toNat + 10)
  else if 'A' ≤ c ∧ c ≤ 'F' then some (c.toNat - 'A'.toNat + 10)
  else none

/-- A single-character JSON string escape. -/
def jsonEscapeChar (c : Char) : Option Char :=
  if c = '"' then some '"'
  else if c = '\\' then some '\\'
  else if c = '/' then some '/'
  else if c = 'b' then some '\x08'
  else if c = 'f' then some '\x0c'
  else if c = 'n' then some '\n'
  else if c = 'r' then some '\r'
  else if c = 't' then some '\t'
  else none

/-- Strict JSON string body (after the opening quote); returns the
decoded content and the rest after the closing quote.  `\uXXXX` decodes
via `Char.ofNat` (surrogates collapse to the default character — no
verified property observes decoded non-ASCII content). -/
def jsonStringRest (fuel : Nat) (s : Str) : Except Str (Str × Str) :=
  match fuel with
  | 0 => .error (pstr "fuel exhausted")
  | fuel + 1 =>
    match s with
    | [] => .error (pstr "Unterminated string")
    | c :: cs =>
      if c = '"' then .ok ([], cs)
      else if c = '\\' then
        match cs with
        | [] => .error (pstr "Unterminated string")
        | e :: cs' =>
          match jsonEscapeChar e with
          | some ch =>
            match jsonStringRest fuel cs' with
            | .error err => .error err
            | .ok (content, rest) => .ok (ch :: content, rest)
          | none =>
            if e = 'u' then
              match cs' with
              | h1 :: h2 :: h3 :: h4 :: cs'' =>
                match hexVal h1, hexVal h2, hexVal h3, hexVal h4 with
                | some a, some b, some c', some d =>
                  match jsonStringRest fuel cs'' with
                  | .error err => .error err
                  | .ok (content, rest) =>
                    .ok (Char.ofNat (((a * 16 + b) * 16 + c') * 16 + d) :: content, rest)
                | _, _, _, _ => .error (pstr "Invalid \\uXXXX escape")
              | _ => .error (pstr "Invalid \\uXXXX escape")
            else .error (pstr "Invalid \\escape")
      else if c.toNat < 32 then .error (pstr "Invalid control character")
      else
        match jsonStringRest fuel cs with
        | .error err => .error err
        | .ok (content, rest) => .ok (c :: content, rest)

/-- Strict JSON number lexeme: `-? (0 | [1-9][0-9]*) (. [0-9]+)?
([eE][+-]?[0-9]+)?`. -/
def jsonNumberLex (s : Str) : Option (Str × Str) :=
  let (neg, s1) := match s with
    | '-' :: r => ((['-'] : Str), r)
    | _ => (([] : Str), s)
  match s1 with
  | [] => none
  | c :: _ =>
    if ¬ c.isDigit then none
    else
      let intPart := if c = '0' then ['0'] else s1.takeWhile Char.isDigit
      let s2 := s1.drop intPart.length
      let fracRes : Option (Str × Str) := match s2 with
        | '.' :: r =>
          let ds := r.takeWhile Char.isDigit
          if ds = [] then none else some ('.' :: ds, r.drop ds.length)
        | _ => some ([], s2)
      match fracRes with
      | none => none
      | some (fracPart, s3) =>
        let (expPart, s4) := match s3 with
          | e :: r =>
            if e = 'e' ∨ e = 'E' then
              let (sign, r2) := match r with
                | '+' :: r' => ((['+'] : Str), r')
                | '-' :: r' => ((['-'] : Str), r')
                | _ => (([] : Str), r)
              let ds := r2.takeWhile Char.isDigit
              if ds = [] then (([] : Str), s3)
              else (e :: (sign ++ ds), r2.drop ds.length)
            else (([] : Str), s3)
          | [] => (([] : Str), s3)
        some (neg ++ intPart ++ fracPart ++ expPart, s4)

mutual

/-- Strict JSON value parser (`json.loads` grammar).  `fuel` bounds
recursion depth; the wrapper supplies `length + 1`, which suffices since
every recursive call strictly consumes input. -/
def jsonParseVal (fuel : Nat) (s : Str) : Except Str (JVal × Str) :=
  match fuel with
  | 0 => .error (pstr "fuel exhausted")
  | fuel + 1 =>
    match jsonWsDrop s with
    | [] => .error (pstr "Expecting value")
    | c :: cs =>
      if c = 'n' then
        if startsW cs (pstr "ull") then .ok (.jnull, cs.drop 3)
        else .error (pstr "Expecting value")
      else if c = 't' then
        if startsW cs (pstr "rue") then .ok (.jbool true, cs.drop 3)
        else .error (pstr "Expecting value")
      else if c = 'f' then
        if startsW cs (pstr "alse") then .ok (.jbool false, cs.drop 4)
        else .error (pstr "Expecting value")
      else if c = '"' then
        match jsonStringRest fuel cs with
        | .error e => .error e
        | .ok (content, rest) => .ok (.jstr content, rest)
      else if c = '[' then
        match jsonWsDrop cs with
        | ']' :: rest => .ok (.jarr [], rest)
        | _ => jsonParseArrElems fuel cs []
      else if c = '{' then
        match jsonWsDrop cs with
        | '}' :: rest => .ok (.jobj [], rest)
        | _ => jsonParseObjFields fuel cs []
      else
        match jsonNumberLex (c :: cs) with
        | some (lex, rest) => .ok (.jnum lex, rest)
        | none => .error (pstr "Expecting value")

/-- Elements of a strict JSON array (after `[`, at least one element). -/
def jsonParseArrElems (fuel : Nat) (s : Str) (acc : List JVal) :
    Except Str (JVal × Str) :=
  match fuel with
  | 0 => .error (pstr "fuel exhausted")
  | fuel + 1 =>
    match jsonParseVal fuel s with
    | .error e => .error e
    | .ok (v, rest) =>
      match jsonWsDrop rest with
      | ',' :: rest' => jsonParseArrElems fuel rest' (acc ++ [v])
      | ']' :: rest' => .ok (.jarr (acc ++ [v]), rest')
      | _ => .error (pstr "Expecting , delimiter")

/-- Fields of a strict JSON object (after `{`, at least one field). -/
def jsonParseObjFields (fuel : Nat) (s : Str) (acc : List (Str × JVal)) :
    Except Str (JVal × Str) :=
  match fuel with
  | 0 => .error (pstr "fuel exhausted")
  | fuel + 1 =>
    match jsonWsDrop s with
    | '"' :: cs =>
      match jsonStringRest fuel cs with
      | .error e => .error e
      | .ok (key, rest) =>
        match jsonWsDrop rest with
        | ':' :: rest' =>
          match jsonParseVal fuel rest' with
          | .error e => .error e
          | .ok (v, rest'') =>
            match jsonWsDrop rest'' with
            | ',' :: rest3 => jsonParseObjFields fuel rest3 (acc ++ [(key, v)])
            | '}' :: rest3 => .ok (.jobj (acc ++ [(key, v)]), rest3)
            | _ => .error (pstr "Expecting , delimiter")
        | _ => .error (pstr "Expecting : delimiter")
    | _ => .error (pstr "Expecting property name enclosed in double quotes")

end

/-- `json.loads`. -/
def jsonLoads (s : Str) : Except Str JVal :=
  match jsonParseVal (s.length + 1) s with
  | .error e => .error e
  | .ok (v, rest) => if jsonWsDrop rest = [] then .ok v else .error (pstr "Extra data")

/-- Drop a `/* */` block comment body (after the opener). -/
def j5DropBlockComment (fuel : Nat) (s : Str) : Str :=
  match fuel with
  | 0 => s
  | fuel + 1 =>
    match s with
    | [] => []
    | '*' :: '/' :: r => r
    | _ :: r => j5DropBlockComment fuel r

/-- JSON5 whitespace and comments (`//` line, `/* */` block). -/
def j5Skip (fuel : Nat) (s : Str) : Str :=
  match fuel with
  | 0 => s
  | fuel + 1 =>
    match s with
    | c :: cs =>
      if c = ' ' ∨ c = '\t' ∨ c = '\n' ∨ c = '\r' ∨ c = '\x0b' ∨ c = '\x0c' then
        j5Skip fuel cs
      else if c = '/' then
        match cs with
        | '/' :: r => j5Skip fuel (r.dropWhile (fun x => ¬ x = '\n'))
        | '*' :: r => j5Skip fuel (j5DropBlockComment (r.length + 1) r)
        | _ => s
      else s
    | [] => []

/-- JSON5 string body after the opening quote `q` (single or double);
extra escapes over JSON: `\'`, `\v`, `\0`, `\xHH`, line continuations,
and any other escaped character standing for itself. -/
def j5StringRest (fuel : Nat) (q : Char) (s : Str) : Except Str (Str × Str) :=
  match fuel with
  | 0 => .error (pstr "fuel exhausted")
  | fuel + 1 =>
    match s with
    | [] => .error (pstr "Unterminated string")
    | c :: cs =>
      if c = q then .ok ([], cs)
      else if c = '\\' then
        match cs with
        | [] => .error (pstr "Unterminated string")
        | e :: cs' =>
          if e = '\n' then
            match j5StringRest fuel q cs' with
            | .error err => .error err
            | .ok (content, rest) => .ok (content, rest)
          else if e = 'u' then
            match cs' with
            | h1 :: h2 :: h3 :: h4 :: cs'' =>
              match hexVal h1, hexVal h2, hexVal h3, hexVal h4 with
              | some a, some b, some c', some d =>
                match j5StringRest fuel q cs'' with
                | .error err => .error err
                | .ok (content, rest) =>
                  .ok (Char.ofNat (((a * 16 + b) * 16 + c') * 16 + d) :: content, rest)
              | _, _, _, _ => .error (pstr "Invalid \\uXXXX escape")
            | _ => .error (pstr "Invalid \\uXXXX escape")
          else if e = 'x' then
            match cs' with
            | h1 :: h2 :: cs'' =>
              match hexVal h1, hexVal h2 with
              | some a, some b =>
                match j5StringRest fuel q cs'' with
                | .error err => .error err
                | .ok (content, rest) => .ok (Char.ofNat (a * 16 + b) :: content, rest)
              | _, _ => .error (pstr "Invalid \\xHH escape")
            | _ => .error (pstr "Invalid \\xHH escape")
          else
            let ch :=
              match jsonEscapeChar e with
              | some x => x
              | none =>
                if e = '\'' then '\''
                else if e = 'v' then '\x0b'
                else if e = '0' then '\x00'
                else e
            match j5StringRest fuel q cs' with
            | .error err => .error err
            | .ok (content, rest) => .ok (ch :: content, rest)
      else if c.toNat < 32 then .error (pstr "Invalid control character")
      else
        match j5StringRest fuel q cs with
        | .error err => .error err
        | .ok (content, rest) => .ok (c :: content, rest)

/-- ECMAScript-style identifier character. -/
def isIdentChar (c : Char) : Bool :=
  c.isAlpha ∨ c.isDigit ∨ c = '_' ∨ c = '$'

/-- JSON5 number lexeme: JSON numbers plus sign `+`, `Infinity`, `NaN`,
hex `0x…`, and leading/trailing decimal points. -/
def j5NumberLex (s : Str) : Option (Str × Str) :=
  let (sign, s1) := match s with
    | '-' :: r => ((['-'] : Str), r)
    | '+' :: r => ((['+'] : Str), r)
    | _ => (([] : Str), s)
  if startsW s1 (pstr "Infinity") then some (sign ++ pstr "Infinity", s1.drop 8)
  else if startsW s1 (pstr "NaN") then some (sign ++ pstr "NaN", s1.drop 3)
  else if startsW s1 (pstr "0x") ∨ startsW s1 (pstr "0X") then
    let ds := (s1.drop 2).takeWhile (fun c => (hexVal c).isSome)
    if ds = [] then none else some (sign ++ s1.take 2 ++ ds, s1.drop (2 + ds.length))
  else
    let ip := s1.takeWhile Char.isDigit
    let s2 := s1.drop ip.length
    let (fp, s3) := match s2 with
      | '.' :: r =>
        let ds := r.takeWhile Char.isDigit
        ('.' :: ds, r.drop ds.length)
      | _ => (([] : Str), s2)
    if ip = [] ∧ fp.length ≤ 1 then none
    else
      let (ep, s4) := match s3 with
        | e :: r =>
          if e = 'e' ∨ e = 'E' then
            let (esign, r2) := match r with
              | '+' :: r' => ((['+'] : Str), r')
              | '-' :: r' => ((['-'] : Str), r')
              | _ => (([] : Str), r)
            let ds := r2.takeWhile Char.isDigit
            if ds = [] then (([] : Str), s3)
            else (e :: (esign ++ ds), r2.drop ds.length)
          else (([] : Str), s3)
        | [] => (([] : Str), s3)
      some (sign ++ ip ++ fp ++ ep, s4)

mutual

/-- JSON5 value parser (model of `json5.loads`). -/
def j5ParseVal (fuel : Nat) (s : Str) : Except Str (JVal × Str) :=
  match fuel with
  | 0 => .error (pstr "fuel exhausted")
  | fuel + 1 =>
    match j5Skip (s.length + 1) s with
    | [] => .error (pstr "Expecting value")
    | c :: cs =>
      if c = '"' ∨ c = '\'' then
        match j5StringRest fuel c cs with
        | .error e => .error e
        | .ok (content, rest) => .ok (.jstr content, rest)
      else if c = '[' then
        match j5Skip (cs.length + 1) cs with
        | ']' :: rest => .ok (.jarr [], rest)
        | _ => j5ArrElems fuel cs []
      else if c = '{' then
        match j5Skip (cs.length + 1) cs with
        | '}' :: rest => .ok (.jobj [], rest)
        | _ => j5ObjFields fuel cs []
      else if startsW (c :: cs) (pstr "null") then .ok (.jnull, cs.drop 3)
      else if startsW (c :: cs) (pstr "true") then .ok (.jbool true, cs.drop 3)
      else if startsW (c :: cs) (pstr "false") then .ok (.jbool false, cs.drop 4)
      else
        match j5NumberLex (c :: cs) with
        | some (lex, rest) => .ok (.jnum lex, rest)
        | none => .error (pstr "Expecting value")

/-- JSON5 array elements (after `[`, trailing comma allowed). -/
def j5ArrElems (fuel : Nat) (s : Str) (acc : List JVal) : Except Str (JVal × Str) :=
  match fuel with
  | 0 => .error (pstr "fuel exhausted")
  | fuel + 1 =>
    match j5ParseVal fuel s with
    | .error e => .error e
    | .ok (v, rest) =>
      match j5Skip (rest.length + 1) rest with
      | ',' :: rest' =>
        match j5Skip (rest'.length + 1) rest' with
        | ']' :: rest'' => .ok (.jarr (acc ++ [v]), rest'')
        | _ => j5ArrElems fuel rest' (acc ++ [v])
      | ']' :: rest' => .ok (.jarr (acc ++ [v]), rest')
      | _ => .error (pstr "Expecting , delimiter")

/-- JSON5 object fields (after `{`): keys are strings (either quote) or
bare identifiers; trailing comma allowed. -/
def j5ObjFields (fuel : Nat) (s : Str) (acc : List (Str × JVal)) :
    Except Str (JVal × Str) :=
  match fuel with
  | 0 => .error (pstr "fuel exhausted")
  | fuel + 1 =>
    let keyRes : Except Str (Str × Str) :=
      match j5Skip (s.length + 1) s with
      | [] => .error (pstr "Expecting property name")
      | c :: cs =>
        if c = '"' ∨ c = '\'' then j5StringRest (cs.length + 1) c cs
        else if isIdentChar c ∧ ¬ c.isDigit then
          .ok ((c :: cs).takeWhile isIdentChar, (c :: cs).dropWhile isIdentChar)
        else .error (pstr "Expecting property name")
    match keyRes with
    | .error e => .error e
    | .ok (key, rest) =>
      match j5Skip (rest.length + 1) rest with
      | ':' :: rest' =>
        match j5ParseVal fuel rest' with
        | .error e => .error e
        | .ok (v, rest'') =>
          match j5Skip (rest''.length + 1) rest'' with
          | ',' :: rest3 =>
            match j5Skip (rest3.length + 1) rest3 with
            | '}' :: rest4 => .ok (.jobj (acc ++ [(key, v)]), rest4)
            | _ => j5ObjFields fuel rest3 (acc ++ [(key, v)])
          | '}' :: rest3 => .ok (.jobj (acc ++ [(key, v)]), rest3)
          | _ => .error (pstr "Expecting , delimiter")
      | _ => .error (pstr "Expecting : delimiter")

end

/-- Model of `json5.loads`. -/
def json5Loads (s : Str) : Except Str JVal :=
  match j5ParseVal (s.length + 1) s with
  | .error e => .error e
  | .ok (v, rest) =>
    if j5Skip (rest.length + 1) rest = [] then .ok v
    else .error (pstr "Extra data")

/-- `llm_utils.clean_response_text` (lines 58-86): replace control
characters other than newline/tab/carriage-return by a space. -/
def clean_response_text (response_text : Str) : Str :=
  response_text.map (fun c =>
    if c.toNat < 32 ∧ ¬ (c = '\n' ∨ c = '\t' ∨ c = '\r') then ' ' else c)

/-- The balanced-span scan of `extract_json_from_markdown` (lines
114-137 and 143-167 — the two regex branches run identical code): walk
from the match start, tracking string/escape state, counting all four
bracket kinds; return the relative index at which the count returns to
zero, if any. -/
def spanScan : Str → Bool → Bool → Int → Nat → Option Nat
  | [], _, _, _, _ => none
  | c :: cs, escNext, inString, count, k =>
    if escNext then spanScan cs false inString count (k + 1)
    else if c = '\\' ∧ inString then spanScan cs true inString count (k + 1)
    else if c = '"' then spanScan cs escNext (¬ inString) count (k + 1)
    else if ¬ inString ∧ (c = '[' ∨ c = '{') then spanScan cs escNext inString (count + 1) (k + 1)
    else if ¬ inString ∧ (c = ']' ∨ c = '}') then
      if count - 1 = 0 then some k else spanScan cs escNext inString (count - 1) (k + 1)
    else spanScan cs escNext inString count (k + 1)

/-- First match position of `\[\s*\{`. -/
def findArrMatch : Str → Nat → Option Nat
  | [], _ => none
  | c :: cs, k =>
    if c = '[' ∧ startsW (cs.dropWhile isPyWS) (pstr "\x7b") then some k
    else findArrMatch cs (k + 1)

/-- First match position of `\{\s*"`. -/
def findObjMatch : Str → Nat → Option Nat
  | [], _ => none
  | c :: cs, k =>
    if c = '{' ∧ startsW (cs.dropWhile isPyWS) (pstr "\"") then some k
    else findObjMatch cs (k + 1)

/-- The object-pattern branch of `extract_json_from_markdown` (and its
fall-through to `response_text.strip()`). -/
def extractObjBranch (response_text : Str) : Str :=
  match findObjMatch response_text 0 with
  | some start =>
    match spanScan (response_text.drop start) false false 0 0 with
    | some endRel => pyStrip ((response_text.drop start).take (endRel + 1))
    | none => pyStrip response_text
  | none => pyStrip response_text

/-- `llm_utils.extract_json_from_markdown` (lines 89-170). -/
def extract_json_from_markdown (response_text : Str) : Str :=
  if hasSub response_text (pstr "```json") then
    pyStrip ((splitSub (pstr "```")
      ((splitSub (pstr "```json") response_text)[1]?.getD [])).headD [])
  else if hasSub response_text (pstr "```") then
    pyStrip ((splitSub (pstr "```")
      ((splitSub (pstr "```") response_text)[1]?.getD [])).headD [])
  else
    match findArrMatch response_text 0 with
    | some start =>
      match spanScan (response_text.drop start) false false 0 0 with
      | some endRel => pyStrip ((response_text.drop start).take (endRel + 1))
      | none => extractObjBranch response_text
    | none => extractObjBranch response_text

/-- `re.sub(r'(?<!\\)\\', r'\\\\', …)`: double every backslash whose
preceding character (in the original text) is not a backslash. -/
def subLoneBackslash : Str → Bool → Str
  | [], _ => []
  | c :: cs, prevBS =>
    if c = '\\' ∧ ¬ prevBS then '\\' :: '\\' :: subLoneBackslash cs true
    else c :: subLoneBackslash cs (c = '\\')

/-- `re.sub(r'(?<!\\)"', r'\\"', …)`: escape every double quote whose
preceding character (in the original text) is not a backslash. -/
def subNonEscQuote : Str → Bool → Str
  | [], _ => []
  | c :: cs, prevBS =>
    if c = '"' ∧ ¬ prevBS then '\\' :: '"' :: subNonEscQuote cs false
    else c :: subNonEscQuote cs (c = '\\')

/-- Match attempt for `re.sub(r',\s*}', '}', …)`. -/
def commaWsBraceTry (s : Str) : Option (Str × Str) :=
  match s with
  | ',' :: r =>
    match r.dropWhile isPyWS with
    | '}' :: r2 => some (pstr "\x7d", r2)
    | _ => none
  | _ => none

/-- Match attempt for `re.sub(r',\s*]', ']', …)`. -/
def commaWsBracketTry (s : Str) : Option (Str × Str) :=
  match s with
  | ',' :: r =>
    match r.dropWhile isPyWS with
    | ']' :: r2 => some (pstr "]", r2)
    | _ => none
  | _ => none

/-- Match attempt for `re.sub(r'}\s*{', '},{', …)`. -/
def braceWsBraceTry (s : Str) : Option (Str × Str) :=
  match s with
  | '}' :: r =>
    match r.dropWhile isPyWS with
    | '{' :: r2 => some (pstr "\x7d,\x7b", r2)
    | _ => none
  | _ => none

/-- Match attempt for `re.sub(r'\\\\\\\\', r'\\\\', …)` (four literal
backslashes become two). -/
def quadBackslashTry (s : Str) : Option (Str × Str) :=
  if startsW s (pstr "\\\\\\\\") then some (pstr "\\\\", s.drop 4) else none

/-- Match attempt for `re.sub(r'"tikz_code":\s*"([^"]*)"', …)` with a
content-rewriting function `f`; the replacement is
`"tikz_code": "{f content}"`. -/
def tikzSimpleFieldTry (f : Str → Str) (s : Str) : Option (Str × Str) :=
  if startsW s (pstr "\"tikz_code\":") then
    let after := s.drop 12
    let ws := after.takeWhile isPyWS
    match after.drop ws.length with
    | '"' :: r =>
      let content := r.takeWhile (fun c => ¬ c = '"')
      match r.drop content.length with
      | '"' :: r2 => some (pstr "\"tikz_code\": \"" ++ f content ++ pstr "\"", r2)
      | _ => none
    | _ => none
  else none

/-- The content fix of `reconstruct_json_from_partial.fix_tikz_content`
(also used for the array branch): double lone backslashes, escape
quotes, escape literal newlines/CRs/tabs. -/
def fixTikzContent (content : Str) : Str :=
  let content := subLoneBackslash content false
  let content := replaceSub (pstr "\"") (pstr "\\\"") content
  let content := replaceSub (pstr "\n") (pstr "\\n") content
  let content := replaceSub (pstr "\r") (pstr "\\r") content
  replaceSub (pstr "\t") (pstr "\\t") content

/-!
### `fix_tikz_json_parsing` (lines 173-259)

Its inner scan loop does not advance the position on `{` or `}`, so the
Python function loops forever whenever such a character occurs in the
scanned field before a terminating quote or comma; the embedding returns
`none` for that divergence.
-/

/-- Position just after the opening quote of the first
`"tikz_code":\s*"` match, if any. -/
def findTikzOpen : Str → Nat → Option Nat
  | [], _ => none
  | c :: cs, k =>
    if startsW (c :: cs) (pstr "\"tikz_code\":") then
      let after := (c :: cs).drop 12
      let ws := after.takeWhile isPyWS
      match after.drop ws.length with
      | '"' :: _ => some (k + 12 + ws.length + 1)
      | _ => findTikzOpen cs (k + 1)
    else findTikzOpen cs (k + 1)

/-- The field-end scan of `fix_single_tikz_field` (lines 196-226):
`some (some k)` — loop broke at relative offset `k`; `some none` — the
loop ran past the end of the text (`end_pos = len - 1`); `none` — the
loop hit `{`/`}` and diverges. -/
def tikzEndScan : Str → Bool → Nat → Option (Option Nat)
  | [], _, _ => some none
  | c :: cs, inEscape, k =>
    if c = '\\' ∧ ¬ inEscape then tikzEndScan cs true (k + 1)
    else if c = '\\' ∧ inEscape then tikzEndScan cs false (k + 1)
    else if c = '"' ∧ ¬ inEscape then some (some k)
    else if c = '{' then none
    else if c = '}' then none
    else if c = ',' then some (some k)
    else tikzEndScan cs inEscape (k + 1)

/-- `fix_single_tikz_field` (lines 189-244); `none` = divergence. -/
def fixSingleTikzField (text : Str) : Option Str :=
  match findTikzOpen text 0 with
  | none => some text
  | some startPos =>
    match tikzEndScan (text.drop startPos) false 0 with
    | none => none
    | some endRelOpt =>
      let endPos := match endRelOpt with
        | some k => startPos + k
        | none => text.length - 1
      let content := (text.take endPos).drop startPos
      some (text.take startPos ++ pstr "\"tikz_code\": \"" ++ fixTikzContent content ++
        pstr "\"" ++ text.drop (endPos + 1))

/-- The `while '"tikz_code":' in … and iterations < 10` loop. -/
def fixTikzLoop (fuel : Nat) (t : Str) : Option Str :=
  match fuel with
  | 0 => some t
  | fuel + 1 =>
    if hasSub t (pstr "\"tikz_code\":") then
      match fixSingleTikzField t with
      | none => none
      | some t' => if t' = t then some t else fixTikzLoop fuel t'
    else some t

/-- `llm_utils.fix_tikz_json_parsing`; `none` = the Python function
diverges. -/
def fix_tikz_json_parsing (response_text : Str) : Option Str :=
  if ¬ hasSub response_text (pstr "\"tikz_code\":") then some response_text
  else fixTikzLoop 10 response_text

/-!
### `manually_fix_tikz_quotes` (lines 262-306)
-/

/-- Scan the `([^"]*(?:\\.[^"]*)*)` content: stop before the first
quote not preceded by a backslash. -/
def manualContentScan : Str → Bool → Str → Option (Str × Str)
  | [], _, _ => none
  | c :: cs, prevBS, acc =>
    if c = '"' ∧ ¬ prevBS then some (acc.reverse, cs)
    else manualContentScan cs (c = '\\') (c :: acc)

/-- Match attempt for the first-phase pattern
`"tikz_code":\s*"([^"]*(?:\\.[^"]*)*)"` (DOTALL): the content extends
through quotes preceded by a backslash and closes at the first quote
that is not. -/
def manualTikzTry (s : Str) : Option (Str × Str) :=
  if startsW s (pstr "\"tikz_code\":") then
    let after := s.drop 12
    let ws := after.takeWhile isPyWS
    match after.drop ws.length with
    | '"' :: r =>
      match manualContentScan r false [] with
      | some (content, rest) =>
        some (pstr "\"tikz_code\": \"" ++ subNonEscQuote content false ++ pstr "\"", rest)
      | none => none
    | _ => none
  else none


/-- One line of the fallback path of `manually_fix_tikz_quotes`. -/
def endsW (s p : Str) : Bool := startsW s.reverse p.reverse

/-- The line-based fallback loop of `manually_fix_tikz_quotes`. -/
def manualFixLines : List Str → Bool → List Str
  | [], _ => []
  | line :: rest, inTikz =>
    if hasSub line (pstr "\"tikz_code\":") then line :: manualFixLines rest true
    else if inTikz ∧ endsW (pyStrip line) (pstr "\",") then
      (subNonEscQuote (rstripSet (pstr "\",") line) false ++ pstr "\",") ::
        manualFixLines rest false
    else if inTikz then subNonEscQuote line false :: manualFixLines rest true
    else line :: manualFixLines rest inTikz

/-- `llm_utils.manually_fix_tikz_quotes`. -/
def manually_fix_tikz_quotes (response_text : Str) : Str :=
  let fixed := regexSub manualTikzTry response_text
  if fixed = response_text then
    joinSep (pstr "\n") (manualFixLines (splitSub (pstr "\n") response_text) false)
  else fixed

/-!
### `reconstruct_json_from_partial` (lines 383-518) and
`extract_simple_kv_pairs` (lines 521-558)
-/

/-- Positions of every `{` in the text (lines 398-403). -/
def bracePositions : Str → Nat → List Nat
  | [], _ => []
  | c :: cs, k =>
    if c = '{' then k :: bracePositions cs (k + 1) else bracePositions cs (k + 1)

/-- The object-end scan (lines 408-431), with its quirky string state
(a closing-quote check that switches `in_string` off in both of its
branches). -/
def objEndScan : Str → Bool → Int → Nat → Option Nat
  | [], _, _, _ => none
  | c :: cs, inString, braceCount, k =>
    if c = '"' ∧ ¬ inString then objEndScan cs true braceCount (k + 1)
    else if c = '"' ∧ inString then objEndScan cs false braceCount (k + 1)
    else if c = '{' ∧ ¬ inString then objEndScan cs inString (braceCount + 1) (k + 1)
    else if c = '}' ∧ ¬ inString then
      if braceCount - 1 = 0 then some k else objEndScan cs inString (braceCount - 1) (k + 1)
    else objEndScan cs inString braceCount (k + 1)

/-- Scan for the first occurrence of `needle`. -/
def pyFindGo : Str → Str → Nat → Option Nat
  | [], needle, k => if needle = [] then some k else none
  | c :: cs, needle, k =>
    if startsW (c :: cs) needle then some k else pyFindGo cs needle (k + 1)

/-- Python `str.find(sub, start)` (absolute index, `none` for -1). -/
def pyFindFrom (t needle : Str) (start : Nat) : Option Nat :=
  match pyFindGo (t.drop start) needle 0 with
  | some k => some (start + k)
  | none => none


/-- Insert into a Python dict modelled as an ordered association list:
existing keys are overwritten in place, new keys appended. -/
def pyDictInsert (d : List (Str × Str)) (k v : Str) : List (Str × Str) :=
  match d with
  | [] => [(k, v)]
  | (k', v') :: rest =>
    if k' = k then (k', v) :: rest else (k', v') :: pyDictInsert rest k v

/-- Membership of a key in the modelled dict. -/
def pyDictHasKey (d : List (Str × Str)) (k : Str) : Bool :=
  match d with
  | [] => false
  | (k', _) :: rest => k' = k ∨ pyDictHasKey rest k

/-- One match attempt of the key/value pattern. -/
def kvTry (s : Str) : Option ((Str × Str) × Str) :=
  match s with
  | '"' :: r =>
    let key := r.takeWhile (fun c => ¬ c = '"')
    if key = [] then none
    else
      match r.drop key.length with
      | '"' :: r2 =>
        match r2.dropWhile isPyWS with
        | ':' :: r3 =>
          match r3.dropWhile isPyWS with
          | '"' :: r4 =>
            let v := r4.takeWhile (fun c => ¬ c = '"')
            match r4.drop v.length with
            | '"' :: r5 => some ((key, v), r5)
            | _ => none
          | _ => none
        | _ => none
      | _ => none
  | _ => none

/-- `re.findall(r'"([^"]+)"\s*:\s*"([^"]*)"', …)`: collect
non-overlapping key/value matches left to right. -/
def kvFindAll (fuel : Nat) (s : Str) : List (Str × Str) :=
  match fuel with
  | 0 => []
  | fuel + 1 =>
    match s with
    | [] => []
    | c :: cs =>
      match kvTry (c :: cs) with
      | some (kv, rest) => kv :: kvFindAll fuel rest
      | none => kvFindAll fuel cs


/-- `llm_utils.extract_simple_kv_pairs`: regex key/value harvesting into
a dict, plus the special `tikz_code` fallback (whose `find('"',
tikz_start)` lands on the opening quote of the key itself, so it
extracts the literal characters `tikz_code`). -/
def extract_simple_kv_pairs (text : Str) : Option (List (Str × Str)) :=
  let pairs := kvFindAll (text.length + 1) text
  let result := pairs.foldl
    (fun d kv =>
      pyDictInsert d kv.1
        (replaceSub (pstr "\\\\") (pstr "\\") (replaceSub (pstr "\\\"") (pstr "\"") kv.2)))
    []
  let result :=
    if hasSub text (pstr "tikz_code") ∧ ¬ pyDictHasKey result (pstr "tikz_code") then
      match pyFindFrom text (pstr "\"tikz_code\":") 0 with
      | none => result
      | some tikzStart =>
        match pyFindFrom text (pstr "\"") tikzStart with
        | none => result
        | some contentStart =>
          match pyFindFrom text (pstr "\"") (contentStart + 1) with
          | none => result
          | some contentEnd =>
            let tikzContent := (text.take contentEnd).drop (contentStart + 1)
            let cleaned := replaceSub (pstr "\\\\") (pstr "\\")
              (replaceSub (pstr "\\\"") (pstr "\"") tikzContent)
            let cleaned := replaceSub (pstr "\r") (pstr "\\r")
              (replaceSub (pstr "\n") (pstr "\\n") cleaned)
            pyDictInsert result (pstr "tikz_code") cleaned
    else result
  if result = [] then none else some result

/-- The per-object repair chain of `reconstruct_json_from_partial`
(lines 436-468). -/
def reconstructFixObj (objText : Str) : Str :=
  let fixedObj := regexSub (tikzSimpleFieldTry fixTikzContent) objText
  let fixedObj := regexSub commaWsBraceTry fixedObj
  let fixedObj := regexSub braceWsBraceTry fixedObj
  let fixedObj := subNonEscQuote fixedObj false
  regexSub quadBackslashTry fixedObj

/-- The per-object loop of `reconstruct_json_from_partial`: parse each
balanced `{...}` span, else fall back to simple key/value extraction. -/
def reconstructObjects (text : Str) : List Nat → List JVal
  | [] => []
  | startPos :: rest =>
    match objEndScan (text.drop (startPos + 1)) false 1 0 with
    | none => reconstructObjects text rest
    | some endRel =>
      let endPos := startPos + 1 + endRel
      let objText := (text.take (endPos + 1)).drop startPos
      match json5Loads (reconstructFixObj objText) with
      | .ok v => v :: reconstructObjects text rest
      | .error _ =>
        match extract_simple_kv_pairs objText with
        | some d => .jobj (d.map (fun kv => (kv.1, .jstr kv.2))) :: reconstructObjects text rest
        | none => reconstructObjects text rest

/-- The array-branch repair chain (lines 487-514). -/
def reconstructFixArray (arrayText : Str) : Str :=
  let fixedArray := regexSub (tikzSimpleFieldTry fixTikzContent) arrayText
  let fixedArray := subNonEscQuote fixedArray false
  let fixedArray := regexSub commaWsBracketTry fixedArray
  regexSub quadBackslashTry fixedArray

/-- `re.search(r'\[.*\]', …, re.DOTALL)`: greedy span from the first
`[` to the last `]` after it. -/
def dotallArraySpan (text : Str) : Option Str :=
  match pyFindFrom text (pstr "[") 0 with
  | none => none
  | some i =>
    match pyFindGo text.reverse (pstr "]") 0 with
    | none => none
    | some revK =>
      let j := text.length - 1 - revK
      if i < j + 1 then some ((text.take (j + 1)).drop i) else none

/-- `llm_utils.reconstruct_json_from_partial`. -/
def reconstruct_json_from_partial (response_text : Str) : Except Str JVal :=
  match reconstructObjects response_text (bracePositions response_text 0) with
  | obj :: objects => .ok (.jarr (obj :: objects))
  | [] =>
    match dotallArraySpan response_text with
    | some arrayText =>
      match json5Loads (reconstructFixArray arrayText) with
      | .ok v => .ok v
      | .error _ => .error (pstr "Failed to reconstruct any valid JSON from response")
    | none => .error (pstr "Failed to reconstruct any valid JSON from response")

/-!
### `parse_json_response` (lines 309-380) and `process_llm_response`
(lines 561-578)
-/

/-- Outcome of `parse_json_response`: a parsed value together with the
1-based index of the strategy that produced it (strategy 1 is the
strict parse — any later strategy is a degraded recovery), a raised
`ValueError`, or divergence inside the TikZ pre-fix. -/
inductive ParseOutcome where
  | ok (v : JVal) (strategy : Nat)
  | err (msg : Str)
  | hang
deriving Repr

/-- `llm_utils.parse_json_response`: blank check, TikZ pre-fix, then the
five-strategy chain; when every strategy fails, the raised `ValueError`
carries the strict-parse error (the 500-character input excerpt goes to
the log only). -/
def parse_json_response (response_text : Str) : ParseOutcome :=
  if pyStrip response_text = [] then .err (pstr "Empty response from LLM")
  else
    match fix_tikz_json_parsing response_text with
    | none => .hang
    | some t =>
      match jsonLoads t with
      | .ok v => .ok v 1
      | .error e1 =>
        match json5Loads t with
        | .ok v => .ok v 2
        | .error _ =>
          match json5Loads (extract_json_from_markdown (clean_response_text t)) with
          | .ok v => .ok v 3
          | .error _ =>
            match json5Loads (manually_fix_tikz_quotes t) with
            | .ok v => .ok v 4
            | .error _ =>
              match reconstruct_json_from_partial t with
              | .ok v => .ok v 5
              | .error _ => .err (pstr "Invalid JSON response from LLM: " ++ e1)

/-- `llm_utils.process_llm_response`: clean, unwrap markdown, parse. -/
def process_llm_response (response_text : Str) : ParseOutcome :=
  parse_json_response (extract_json_from_markdown (clean_response_text response_text))

/-!
## Concrete instances used in counterexamples
-/

/-- A question with a perfectly good answer but empty question text. -/
def c9Question : Question :=
  { instance_id := 0, pattern_id := 0, topic := [],
    question_text := [],
    correct_answer := pstr "42",
    tikz_code := pstr "\\draw (0,0) -- (1,1);", difficulty := pstr "easy",
    solvability_check := pstr "pending",
    «variables» := [(pstr "x", pstr "1")] }

/-- A benign effect oracle: writes succeed, the compiler succeeds with a
non-empty PDF, rasterisation and validation succeed, 5 seconds elapse. -/
def exWorld : RenderWorld :=
  { texAttempt := fun _ => .written true 100,
    timestamp := fun _ => 0,
    tectonicAttempt := fun _ => .run 0 [] true 500,
    pngAttempt := fun _ => .ok,
    finalPng := .stat 1000 (.img 300 300 (pstr "RGB")),
    elapsed := 5 }

/-- The default renderer configuration (`dpi=300`, `max_retries=3`). -/
def exConfig : RendererConfig :=
  { temp_dir := pstr "./temp", dpi := 300, keep_intermediate := false, max_retries := 3 }

/-- The diagrams directory used by concrete instances. -/
def exDiagramsDir : Str := pstr "output/diagrams"

/-- A question whose diagram source has unbalanced braces. -/
def c3Question : Question :=
  { instance_id := 0, pattern_id := 0, topic := [], question_text := [],
    correct_answer := [], tikz_code := pstr "\\draw (0,0) -- \x7b1,1;",
    difficulty := [], solvability_check := [], «variables» := [] }

/-- An oracle whose filesystem rejects every TEX write. -/
def exFailWorld : RenderWorld :=
  { texAttempt := fun _ => .exn (pstr "disk full"),
    timestamp := fun _ => 0,
    tectonicAttempt := fun _ => .run 0 [] true 500,
    pngAttempt := fun _ => .ok,
    finalPng := .stat 1000 (.img 300 300 (pstr "RGB")),
    elapsed := 2 }

/-- An oracle whose compiler always exits 0 but writes an empty PDF. -/
def exEmptyPdfWorld : RenderWorld :=
  { texAttempt := fun _ => .written true 100,
    timestamp := fun _ => 0,
    tectonicAttempt := fun _ => .run 0 [] true 0,
    pngAttempt := fun _ => .ok,
    finalPng := .stat 1000 (.img 300 300 (pstr "RGB")),
    elapsed := 3 }

/-- A question whose diagram source passes validation. -/
def c8Question : Question :=
  { instance_id := 0, pattern_id := 0, topic := [], question_text := [],
    correct_answer := [], tikz_code := pstr "\\draw (0,0) -- (1,1);",
    difficulty := [], solvability_check := [], «variables» := [] }

/-- A two-question set for exercising the worker-pool reassembly. -/
def c5QSet : QuestionSet :=
  { pattern_id := 0, pattern_name := pstr "Distance", questions := [c8Question, c3Question],
    topic := pstr "Coordinate Geometry" }

/-- A concrete pattern for exercising the orchestrator. -/
def c4Pattern (i : Nat) : QuestionPattern :=
  { pattern_id := i, pattern_name := pstr "Distance", diagram_description := pstr "two points",
    question_template := pstr "Find the distance", difficulty := pstr "easy",
    learning_objective := pstr "distance" }

/-- A concrete question whose diagram source is rejected by sanitation. -/
def c4Question (pid i : Nat) : Question :=
  { instance_id := i, pattern_id := pid, topic := pstr "Coordinate Geometry",
    question_text := pstr "Find the distance?", correct_answer := pstr "5",
    tikz_code := pstr "x", difficulty := pstr "easy",
    solvability_check := pstr "pending", «variables» := [(pstr "d", pstr "5")] }

/-- An orchestrator oracle: the pattern generator recovers 2 patterns and
the question generator 3 instances per pattern. -/
def c4World : RunWorld :=
  { genPatterns := fun topic _ _ => .ok
      { topic := topic, patterns := [c4Pattern 0, c4Pattern 1],
        generation_timestamp := pstr "2024-01-01", model_used := pstr "llama" },
    genQuestions := fun p _ => .ok
      { pattern_id := p.pattern_id, pattern_name := p.pattern_name,
        questions := [c4Question p.pattern_id 0, c4Question p.pattern_id 1,
          c4Question p.pattern_id 2],
        topic := pstr "Coordinate Geometry" },
    renderWorld := fun _ _ => exWorld,
    parallelOrder := fun _ => [0, 1, 2],
    docBuildExn := fun _ => none,
    timestamp := pstr "2024-01-01T00:00:00" }

/-- Sequential rendering, solvability checking on. -/
def c4Config : PipelineConfig :=
  { validate_solvability := true, parallel_rendering := false,
    output_dir := pstr "output", tikz := exConfig }

/-- The page the PDF builder produces for `c4Question _ i`. -/
def c4Page (i : Nat) : PDFPage :=
  { page_number := i + 1, question_id := i, question_text := pstr "Find the distance?",
    tikz_code := pstr "x", answer := pstr "5", image_path := [] }

/-- The `PatternPDF` produced for pattern index `idx < 10`. -/
def c4Pdf (idx : Nat) : PatternPDF :=
  { pattern_id := idx, pattern_name := pstr "Distance",
    pdf_path := pstr "output/pattern_0" ++ natStr idx ++ pstr "_Distance.pdf",
    pages := [c4Page 0, c4Page 1, c4Page 2], generation_time := 0 }

/-- The manifest `pipelineRun c4World c4Config ...` produces. -/
def c4Manifest : OutputManifest :=
  { topic := pstr "Coordinate Geometry", total_patterns := 10, total_questions := 100,
    pdfs := [c4Pdf 0, c4Pdf 1], diagrams_dir := pstr "output/diagrams",
    output_dir := pstr "output", generation_timestamp := pstr "2024-01-01T00:00:00" }

/-- A valid JSON array of one record whose only string value is a
markdown fence. -/
def c1Input : Str := pstr "[\x7b\"a\": \"```\"\x7d]"

/-- A non-blank input on which every recovery strategy fails. -/
def c6Input : Str := pstr "xyz"

/-!
# Theorems
-/

/-- C9 (counterexample): the solvability heuristic is claimed to return
`invalid` exactly when the answer is empty, a placeholder, or shorter than
2 characters.  On a question whose answer is the honest "42" but whose
question text is empty, the code returns `invalid` although the claimed
condition does not hold. -/
theorem c9_solvability_claim_false :
    (SolvabilityChecker.check c9Question).1 = pstr "invalid" ∧
      ¬ specSolvInvalidCond c9Question := by
  constructor
  · decide
  · decide

/-- C9 (amended): `SolvabilityChecker.check` returns `invalid` exactly when
the stripped answer is empty, `unknown`/`n/a` (case-insensitively), or
shorter than 2 characters, **or** the stripped question text is empty,
**or** the variables dictionary is empty; it returns `valid` otherwise. -/
theorem c9_solvability_invalid_iff (q : Question) :
    ((SolvabilityChecker.check q).1 = pstr "invalid" ↔ solvInvalidCond q) ∧
    ((SolvabilityChecker.check q).1 = pstr "valid" ↔ ¬ solvInvalidCond q) := by
  have hiv : ¬ (pstr "invalid" = pstr "valid") := by decide
  have hvi : ¬ (pstr "valid" = pstr "invalid") := by decide
  by_cases h1 : (pyStrip q.correct_answer = [] ∨
      pyLower (pyStrip q.correct_answer) = pstr "unknown" ∨
      pyLower (pyStrip q.correct_answer) = pstr "n/a") <;>
  by_cases h2 : pyStrip q.question_text = [] <;>
  by_cases h3 : q.«variables» = [] <;>
  by_cases h4 : (pyStrip q.correct_answer).length < 2 <;>
    simp [SolvabilityChecker.check, solvInvalidCond, h1, h2, h3, h4,
      List.length_eq_zero, hiv, hvi]

/-- Helper: a prefix of `s` is also a prefix of `s ++ t`. -/
theorem startsW_append (s p t : Str) (h : startsW s p = true) :
    startsW (s ++ t) p = true := by
  induction p generalizing s with
  | nil => simp [startsW]
  | cons x ps ih =>
    cases s with
    | nil => simp [startsW] at h
    | cons c cs =>
      simp only [startsW, Bool.and_eq_true] at h ⊢
      exact ⟨h.1, ih cs h.2⟩

/-- Helper: the empty needle occurs in every string. -/
theorem hasSub_nil (s : Str) : hasSub s [] = true := by
  cases s <;> simp [hasSub, startsW]

/-- Helper: an occurrence in `a` is an occurrence in `a ++ b`. -/
theorem hasSub_append_left (a b n : Str) (h : hasSub a n = true) :
    hasSub (a ++ b) n = true := by
  induction a with
  | nil =>
    simp only [hasSub, decide_eq_true_eq] at h
    subst h
    exact hasSub_nil b
  | cons c cs ih =>
    simp only [hasSub, Bool.or_eq_true] at h ⊢
    rcases h with h | h
    · exact Or.inl (startsW_append _ _ _ h)
    · exact Or.inr (ih h)

/-- Helper: under the C3 hypothesis, `RobustTikZValidator.validate`
rejects with a non-empty message. -/
theorem validate_rejects (t : Str)
    (h : countChar '{' t ≠ countChar '}' t ∨
         countChar '[' t ≠ countChar ']' t ∨
         ∃ p ∈ robustForbiddenPatterns, hasSub (pyLower t) p = true) :
    ∃ m, RobustTikZValidator.validate t = (false, some m) ∧ m ≠ [] := by
  unfold RobustTikZValidator.validate
  split_ifs with h1 h2 h3 h4
  · exact ⟨_, rfl, by decide⟩
  · exact ⟨_, rfl, by decide⟩
  · exact ⟨_, rfl, by decide⟩
  all_goals
    rcases h with h | h | h
    · exact absurd h h2
    · exact absurd h h3
    · have hsome : (robustForbiddenPatterns.find?
          (fun p => hasSub (pyLower t) p)).isSome = true := by
        rw [List.find?_isSome]
        exact h
      rcases Option.isSome_iff_exists.mp hsome with ⟨p, hp⟩
      rw [hp]
      refine ⟨_, rfl, fun hc => ?_⟩
      have := (List.append_eq_nil.mp hc).1
      simp [pstr] at this

/-- C3: for a diagram source with unbalanced brace or bracket counts, or
containing a deny-listed directive, `Pipeline._render_single_diagram`
fails at the sanitation stage with a failed `RenderedDiagram` carrying a
non-empty error message, and the external compiler subprocess is invoked
zero times. -/
theorem c3_sanitation_rejects_without_subprocess
    (w : RenderWorld) (cfg : RendererConfig) (dir : Str) (q : Question) (patternIdx : Nat)
    (h : countChar '{' q.tikz_code ≠ countChar '}' q.tikz_code ∨
         countChar '[' q.tikz_code ≠ countChar ']' q.tikz_code ∨
         ∃ p ∈ robustForbiddenPatterns, hasSub (pyLower q.tikz_code) p = true) :
    (renderSingleDiagram w cfg dir q patternIdx).1.success = false ∧
    (∃ m, (renderSingleDiagram w cfg dir q patternIdx).1.error_message = some m ∧ m ≠ []) ∧
    (renderSingleDiagram w cfg dir q patternIdx).2 = 0 := by
  rcases validate_rejects q.tikz_code h with ⟨m, hval, hm⟩
  unfold renderSingleDiagram
  rw [hval]
  exact ⟨rfl, ⟨m, rfl, hm⟩, rfl⟩

/-- C3 witness: a concrete unbalanced source is rejected with no
subprocess call. -/
theorem c3_witness :
    (countChar '{' c3Question.tikz_code ≠ countChar '}' c3Question.tikz_code ∨
     countChar '[' c3Question.tikz_code ≠ countChar ']' c3Question.tikz_code ∨
     ∃ p ∈ robustForbiddenPatterns,
       hasSub (pyLower c3Question.tikz_code) p = true) ∧
    ((renderSingleDiagram exWorld exConfig exDiagramsDir c3Question 0).1.success = false ∧
     (∃ m, (renderSingleDiagram exWorld exConfig exDiagramsDir c3Question 0).1.error_message =
         some m ∧ m ≠ []) ∧
     (renderSingleDiagram exWorld exConfig exDiagramsDir c3Question 0).2 = 0) :=
  ⟨Or.inl (by decide),
   c3_sanitation_rejects_without_subprocess exWorld exConfig exDiagramsDir c3Question 0
     (Or.inl (by decide))⟩

/-- C2: `RobustTikZRenderer.render` always returns a result record (the
embedding is a total function into `RenderMeta`, mirroring the outer
`try/except/finally` that converts every raised stage failure into an
error entry); whenever the result is unsuccessful, the accumulated error
list is non-empty and contains the `Pipeline failed:` entry appended by
the exception handler for the failed stage. -/
theorem c2_render_failure_recorded
    (w : RenderWorld) (cfg : RendererConfig) (tikz_code output_png : Str)
    (h : (render w cfg tikz_code output_png).1.success = false) :
    (render w cfg tikz_code output_png).1.errors ≠ [] ∧
    ∃ e ∈ (render w cfg tikz_code output_png).1.errors,
      startsW e (pstr "Pipeline failed: ") = true := by
  simp only [render] at h ⊢
  rcases hA : (writeStandaloneTexFile w cfg (generateCleanTikzCode tikz_code).1).1
    with _ | texPath
  · refine ⟨?_, ⟨pstr "Pipeline failed: Failed to create TEX file", ?_, by decide⟩⟩ <;>
      simp [hA, renderFinally]
  · rcases hB : (compileWithTectonic w cfg texPath).1 with _ | pdfPath
    · refine ⟨?_, ⟨pstr "Pipeline failed: Tectonic compilation failed", ?_, by decide⟩⟩ <;>
        simp [hA, hB, renderFinally]
    · rcases hC : (convertToPngWithPypdfium2 w cfg).1 with _ | _
      · refine ⟨?_, ⟨pstr "Pipeline failed: PDF to PNG conversion failed", ?_, by decide⟩⟩ <;>
          simp [hA, hB, hC, renderFinally]
      · rcases hD : (validateFinalPng w).1 with _ | _
        · refine ⟨?_, ⟨pstr "Pipeline failed: Final PNG validation failed", ?_, by decide⟩⟩ <;>
            simp [hA, hB, hC, hD, renderFinally]
        · simp [hA, hB, hC, hD, renderFinally] at h

/-- C2 witness: with a filesystem that rejects every write, `render`
returns a failed result whose error list records the failure. -/
theorem c2_witness :
    (render exFailWorld exConfig (pstr "\\draw (0,0) -- (1,1);") (pstr "out.png")).1.success
      = false ∧
    ((render exFailWorld exConfig (pstr "\\draw (0,0) -- (1,1);") (pstr "out.png")).1.errors
      ≠ [] ∧
     ∃ e ∈ (render exFailWorld exConfig (pstr "\\draw (0,0) -- (1,1);")
        (pstr "out.png")).1.errors,
       startsW e (pstr "Pipeline failed: ") = true) :=
  ⟨by decide,
   c2_render_failure_recorded exFailWorld exConfig (pstr "\\draw (0,0) -- (1,1);")
     (pstr "out.png") (by decide)⟩

/-- Helper: the error message recorded when the compiler exits 0 but the
PDF is empty, for attempt `i` (0-based). -/
def emptyPdfMsg (i : Nat) : Str :=
  pstr "PDF created but empty (attempt " ++ natStr (i + 1) ++ pstr ")"

/-- Helper: when every attempt in range exits 0 with an existing,
zero-length PDF, `tectonicGo` exhausts all attempts, invoking the
subprocess each time, and every recorded error mentions "empty". -/
theorem tectonicGo_all_empty (w : RenderWorld) (pdfPath : Str) :
    ∀ (remaining i : Nat) (errs : List Str) (invoked : Nat),
      (∀ j, j < remaining → ∃ s, w.tectonicAttempt (i + j) = .run 0 s true 0) →
      ∃ extra, tectonicGo w i remaining pdfPath errs invoked =
          (none, errs ++ extra, invoked + remaining) ∧
        extra.length = remaining ∧
        ∀ e ∈ extra, hasSub e (pstr "empty") = true := by
  intro remaining
  induction remaining with
  | zero =>
    intro i errs invoked _
    exact ⟨[], by simp [tectonicGo], rfl, by simp⟩
  | succ r ih =>
    intro i errs invoked h
    obtain ⟨s, hs⟩ := h 0 (Nat.succ_pos r)
    have hs' : w.tectonicAttempt i = .run 0 s true 0 := by simpa using hs
    have h' : ∀ j, j < r → ∃ s, w.tectonicAttempt (i + 1 + j) = .run 0 s true 0 := by
      intro j hj
      have := h (j + 1) (Nat.succ_lt_succ hj)
      simpa [Nat.add_assoc, Nat.add_comm, Nat.add_left_comm] using this
    obtain ⟨extra, heq, hlen, hmem⟩ := ih (i + 1) (errs ++ [emptyPdfMsg i]) (invoked + 1) h'
    refine ⟨emptyPdfMsg i :: extra, ?_, by simp [hlen], ?_⟩
    · simp only [tectonicGo, hs']
      simp only [emptyPdfMsg] at heq ⊢
      rw [if_neg (by norm_num), if_neg (by simp), if_pos trivial, heq]
      simp only [Prod.mk.injEq]
      refine ⟨?_, ?_, ?_⟩ <;> first | trivial | simp | omega
    · intro e he
      rcases List.mem_cons.mp he with rfl | he'
      · exact hasSub_append_left _ _ _
          (hasSub_append_left _ _ _ (by decide))
      · exact hmem e he'

/-- C7: if the external compiler always exits 0 but the produced PDF is
zero-length, the compilation stage makes exactly `max_retries` subprocess
invocations, the whole compile fails, and the accumulated errors contain
an entry mentioning "empty". -/
theorem c7_empty_pdf_exhausts_retries
    (w : RenderWorld) (cfg : RendererConfig) (tikz_code output_png : Str)
    (h1 : 1 ≤ cfg.max_retries)
    (h2 : ∃ size, size ≠ 0 ∧ w.texAttempt 0 = .written true size)
    (h3 : ∀ j, j < cfg.max_retries → ∃ s, w.tectonicAttempt j = .run 0 s true 0) :
    (render w cfg tikz_code output_png).2 = cfg.max_retries ∧
    (render w cfg tikz_code output_png).1.success = false ∧
    ∃ e ∈ (render w cfg tikz_code output_png).1.errors,
      hasSub e (pstr "empty") = true := by
  obtain ⟨size, hsz, htex⟩ := h2
  obtain ⟨k, hk⟩ : ∃ k, cfg.max_retries = k + 1 := ⟨cfg.max_retries - 1, by omega⟩
  have hwrite : writeStandaloneTexFile w cfg (generateCleanTikzCode tikz_code).1 =
      (some (texFileName cfg w 0), []) := by
    unfold writeStandaloneTexFile
    rw [hk]
    simp only [writeTexGo, htex]
    simp [hsz]
  obtain ⟨extra, hcomp, hlen, hmem⟩ :=
    tectonicGo_all_empty w (withSuffixPdf (texFileName cfg w 0)) cfg.max_retries 0 [] 0
      (by simpa using h3)
  have hcomp' : compileWithTectonic w cfg (texFileName cfg w 0) =
      (none, extra, cfg.max_retries) := by
    unfold compileWithTectonic
    simpa using hcomp
  have hextra : extra ≠ [] := by
    intro hc
    rw [hc] at hlen
    simp at hlen
    omega
  obtain ⟨e, he⟩ := List.exists_mem_of_ne_nil extra hextra
  refine ⟨?_, ?_, ⟨e, ?_, hmem e he⟩⟩
  · simp [render, hwrite, hcomp']
  · simp [render, hwrite, hcomp', renderFinally]
  · simp [render, hwrite, hcomp', renderFinally, he]

/-- C7 witness: with a stub compiler that exits 0 but writes an empty
PDF, the default configuration makes exactly 3 invocations and fails
with an error mentioning "empty". -/
theorem c7_witness :
    (1 ≤ exConfig.max_retries ∧
     (∃ size, size ≠ 0 ∧ exEmptyPdfWorld.texAttempt 0 = .written true size) ∧
     (∀ j, j < exConfig.max_retries →
        ∃ s, exEmptyPdfWorld.tectonicAttempt j = .run 0 s true 0)) ∧
    ((render exEmptyPdfWorld exConfig (pstr "\\draw (0,0) -- (1,1);")
        (pstr "out.png")).2 = exConfig.max_retries ∧
     (render exEmptyPdfWorld exConfig (pstr "\\draw (0,0) -- (1,1);")
        (pstr "out.png")).1.success = false ∧
     ∃ e ∈ (render exEmptyPdfWorld exConfig (pstr "\\draw (0,0) -- (1,1);")
        (pstr "out.png")).1.errors, hasSub e (pstr "empty") = true) :=
  ⟨⟨by decide, ⟨100, by decide, rfl⟩, fun _ _ => ⟨[], rfl⟩⟩,
   c7_empty_pdf_exhausts_retries exEmptyPdfWorld exConfig
     (pstr "\\draw (0,0) -- (1,1);") (pstr "out.png")
     (by decide) ⟨100, by decide, rfl⟩ (fun _ _ => ⟨[], rfl⟩)⟩

/-- Helper: the `render_metadata` dictionary has no `render_time` key, so
`dict.get("render_time", 0.0)` always yields the default. -/
theorem metaGet_render_time (m : RenderMeta) :
    pyDictGet (metaEntries m) (pstr "render_time") (.vnum 0) = .vnum 0 := by
  simp only [pyDictGet, metaEntries, assocFind]
  rw [if_neg (by decide), if_neg (by decide), if_neg (by decide), if_neg (by decide),
    if_neg (by decide), if_neg (by decide), if_neg (by decide), if_neg (by decide)]
  rfl

/-- C8: the `RenderedDiagram` handed to the orchestrator never holds the
elapsed rendering time: `Pipeline._render_single_diagram` reads the key
`render_time` from the renderer's metadata, but the renderer stores the
elapsed time under `execution_time`, so `render_time` is always 0 — even
on a successful render with a non-zero elapsed time (third conjunct). -/
theorem c8_render_time_always_zero :
    (∀ (w : RenderWorld) (cfg : RendererConfig) (dir : Str) (q : Question) (patternIdx : Nat),
      (renderSingleDiagram w cfg dir q patternIdx).1.render_time = 0) ∧
    (∀ (w : RenderWorld) (cfg : RendererConfig) (tikz_code output_png : Str),
      (render w cfg tikz_code output_png).1.execution_time = w.elapsed) ∧
    ((renderSingleDiagram exWorld exConfig exDiagramsDir c8Question 0).1.success = true ∧
     exWorld.elapsed = 5) := by
  refine ⟨?_, ?_, by decide, by decide⟩
  · intro w cfg dir q patternIdx
    unfold renderSingleDiagram
    rcases hv : RobustTikZValidator.validate q.tikz_code with ⟨b, err⟩
    cases b
    · rfl
    · simp only [metaGet_render_time]
      rfl
  · intro w cfg tikz_code output_png
    simp only [render]
    rcases hA : (writeStandaloneTexFile w cfg (generateCleanTikzCode tikz_code).1).1
      with _ | texPath
    · simp [renderFinally]
    · rcases hB : (compileWithTectonic w cfg texPath).1 with _ | pdfPath
      · simp [hB, renderFinally]
      · rcases hC : (convertToPngWithPypdfium2 w cfg).1 with _ | _ <;>
          rcases hD : (validateFinalPng w).1 with _ | _ <;>
            simp [hB, hC, hD, renderFinally]

/-- Helper: reading back a fold of position-indexed writes: position `j`
holds the written value exactly when `j` was written and is in range. -/
theorem foldl_set_getElem {α : Type} (g : Nat → α) :
    ∀ (order : List Nat) (init : List α) (j : Nat),
      (order.foldl (fun acc i => acc.set i (g i)) init)[j]? =
        if j ∈ order ∧ j < init.length then some (g j) else init[j]? := by
  intro order
  induction order with
  | nil => intro init j; simp
  | cons k rest ih =>
    intro init j
    rw [List.foldl_cons, ih, List.length_set]
    by_cases hjr : j ∈ rest
    · by_cases hlen : j < init.length
      · simp [hjr, hlen]
      · simp only [hjr, hlen, and_false, if_false, List.getElem?_set]
        have h1 : init[j]? = none := List.getElem?_eq_none (by omega)
        by_cases hkj : k = j
        · subst hkj
          simp [hlen, h1]
        · simp [hkj, h1]
    · by_cases hkj : k = j
      · subst hkj
        by_cases hlen : k < init.length
        · simp [hjr, hlen, List.getElem?_set]
        · have h1 : init[k]? = none := List.getElem?_eq_none (by omega)
          simp [hjr, hlen, List.getElem?_set, h1]
      · have hmem : ¬ (j ∈ k :: rest) := by
          intro hc
          rcases List.mem_cons.mp hc with hc | hc
          · exact hkj hc.symm
          · exact hjr hc
        simp only [hjr, false_and, if_false, hmem, List.getElem?_set]
        simp [hkj]

/-- Helper: the fold of position-indexed writes preserves the length. -/
theorem foldl_set_length {α : Type} (g : Nat → α) :
    ∀ (order : List Nat) (init : List α),
      (order.foldl (fun acc i => acc.set i (g i)) init).length = init.length := by
  intro order
  induction order with
  | nil => intro init; rfl
  | cons k rest ih => intro init; rw [List.foldl_cons, ih, List.length_set]

/-- Helper: element `j` of the sequential render is the compile result of
question `j`. -/
theorem seqGo_getElem (rw : Nat → RenderWorld) (cfg : RendererConfig)
    (diagramsDir : Str) (patternIdx : Nat) :
    ∀ (l : List Question) (i j : Nat),
      (renderDiagramsSequentialGo rw cfg diagramsDir patternIdx i l)[j]? =
        (l[j]?).map
          (fun q => some (renderSingleDiagram (rw (i + j)) cfg diagramsDir q patternIdx).1) := by
  intro l
  induction l with
  | nil => intro i j; simp [renderDiagramsSequentialGo]
  | cons q rest ih =>
    intro i j
    cases j with
    | zero => simp [renderDiagramsSequentialGo]
    | succ j' =>
      have harith : i + 1 + j' = i + (j' + 1) := by omega
      simp only [renderDiagramsSequentialGo, List.getElem?_cons_succ, ih (i + 1) j', harith]

/-- C5: for every completion order of the worker pool (any permutation of
the submitting indices), `Pipeline._render_diagrams_parallel` returns the
same list as the sequential renderer: one result per instance, indexed by
instance position, not by completion order. -/
theorem c5_parallel_indexed_by_position
    (rw : Nat → RenderWorld) (cfg : RendererConfig) (diagramsDir : Str)
    (qs : QuestionSet) (patternIdx : Nat) (order : List Nat)
    (h : order.Perm (List.range qs.questions.length)) :
    renderDiagramsParallel rw cfg diagramsDir qs patternIdx order =
      renderDiagramsSequential rw cfg diagramsDir qs patternIdx := by
  apply List.ext_getElem?
  intro j
  unfold renderDiagramsParallel renderDiagramsSequential
  rw [foldl_set_getElem (parallelResultAt rw cfg diagramsDir qs patternIdx) order _ j,
    seqGo_getElem, List.length_replicate]
  by_cases hj : j < qs.questions.length
  · have hmem : j ∈ order := h.mem_iff.mpr (List.mem_range.mpr hj)
    rw [if_pos ⟨hmem, hj⟩, List.getElem?_eq_getElem hj]
    simp [parallelResultAt, List.getElem?_eq_getElem hj]
  · have hmem : j ∉ order := fun hc => hj (List.mem_range.mp (h.mem_iff.mp hc))
    rw [if_neg (fun hc => hmem hc.1)]
    have h2 : qs.questions[j]? = none := List.getElem?_eq_none (by omega)
    rw [List.getElem?_eq_none (l := List.replicate qs.questions.length
      (none : Option RenderedDiagram)) (by simpa using hj), h2]
    rfl

/-- C5 witness: with completion order `[1, 0]` (second compile finishes
first), the reassembled list still matches instance order. -/
theorem c5_witness :
    ([1, 0] : List Nat).Perm (List.range c5QSet.questions.length) ∧
    renderDiagramsParallel (fun _ => exWorld) exConfig exDiagramsDir c5QSet 0 [1, 0] =
      renderDiagramsSequential (fun _ => exWorld) exConfig exDiagramsDir c5QSet 0 :=
  ⟨by decide,
   c5_parallel_indexed_by_position (fun _ => exWorld) exConfig exDiagramsDir c5QSet 0 [1, 0]
     (by decide)⟩

/-- C10: `Pipeline.run` forces the pattern count to exactly 10 no matter
what `num_patterns` the caller supplies: the forced count is 10, the run
is independent of the argument, and every produced manifest reports
`total_patterns = 10` and `total_questions = 100`. -/
theorem c10_num_patterns_forced_to_ten
    (w : RunWorld) (cfg : PipelineConfig) (topic grade : Str) (n1 n2 : Option Nat) :
    runNumPatterns n1 = 10 ∧
    pipelineRun w cfg topic grade n1 = pipelineRun w cfg topic grade n2 ∧
    ∀ m, pipelineRun w cfg topic grade n1 = .ok m →
      m.total_patterns = 10 ∧ m.total_questions = 100 := by
  have h1 : runNumPatterns n1 = 10 := by cases n1 <;> rfl
  have h2 : runNumPatterns n2 = 10 := by cases n2 <;> rfl
  refine ⟨h1, ?_, ?_⟩
  · unfold pipelineRun
    rw [h1, h2]
  · intro m hm
    unfold pipelineRun at hm
    rw [h1] at hm
    dsimp only at hm
    rcases hg : w.genPatterns topic grade 10 with e | pats
    · rw [hg] at hm; exact absurd hm (by simp)
    · rw [hg] at hm
      dsimp only at hm
      rcases hq : questionSetsGo w cfg topic pats.patterns with e | qsets
      · rw [hq] at hm; exact absurd hm (by simp)
      · rw [hq] at hm
        dsimp only at hm
        rcases hb : buildAllPdfsGo w cfg 0 qsets (renderAllGo w cfg 0 qsets)
          with e | pdfs
        · rw [hb] at hm; exact absurd hm (by simp)
        · rw [hb] at hm
          simp only [Except.ok.injEq] at hm
          subst hm
          exact ⟨rfl, rfl⟩

/-- C10 witness: a run invoked with `num_patterns = 3` behaves as if 10
were requested and its manifest reports the forced totals. -/
theorem c10_witness :
    runNumPatterns (some 3) = 10 ∧
    pipelineRun c4World c4Config (pstr "Coordinate Geometry") (pstr "9-12") (some 3) =
      pipelineRun c4World c4Config (pstr "Coordinate Geometry") (pstr "9-12") none ∧
    (c4Manifest.total_patterns = 10 ∧ c4Manifest.total_questions = 100) := by
  obtain ⟨ha, hb, hc⟩ := c10_num_patterns_forced_to_ten c4World c4Config
    (pstr "Coordinate Geometry") (pstr "9-12") (some 3) none
  exact ⟨ha, hb, hc c4Manifest rfl⟩

/-- C4 (counterexample): a completed run whose generators produced
2 patterns with 3 instances each (6 generated instances, listed as 6
manifest pages) still reports `total_questions = 100`, refuting the
claim that `total_questions` equals the number of instances actually
generated. -/
theorem c4_total_questions_claim_false :
    pipelineRun c4World c4Config (pstr "Coordinate Geometry") (pstr "9-12") (some 2) =
      .ok c4Manifest ∧
    (c4Manifest.pdfs.map (fun p => p.pages.length)).sum = 6 ∧
    c4Manifest.total_questions = 100 ∧ (100 : Nat) ≠ 6 :=
  ⟨rfl, by decide, rfl, by decide⟩

/-- Helper: when the page builder succeeds it emits one page per
question. -/
theorem buildPagesGo_length (diagrams : List (Option RenderedDiagram)) :
    ∀ (questions : List Question) (i : Nat) (pages : List PDFPage),
      buildPagesGo diagrams questions i = .ok pages →
        pages.length = questions.length := by
  intro questions
  induction questions with
  | nil =>
    intro i pages h
    simp only [buildPagesGo, Except.ok.injEq] at h
    subst h
    rfl
  | cons q rest ih =>
    intro i pages h
    simp only [buildPagesGo] at h
    rcases hd : diagrams[i]? with _ | diagram
    · rw [hd] at h; exact absurd h (by simp)
    · rw [hd] at h
      dsimp only at h
      rcases hrec : buildPagesGo diagrams rest (i + 1) with e | ps
      · rw [hrec] at h; exact absurd h (by simp)
      · rw [hrec] at h
        simp only [Except.ok.injEq] at h
        subst h
        simp [ih (i + 1) ps hrec]

/-- Helper: a successfully built `PatternPDF` has one page per question
of its question set. -/
theorem buildPdf_pages (qset : QuestionSet) (diagrams : List (Option RenderedDiagram))
    (output_pdf : Str) (docBuildExn : Option Str) (pdf : PatternPDF)
    (h : buildPdf qset diagrams output_pdf docBuildExn = .ok pdf) :
    pdf.pages.length = qset.questions.length := by
  unfold buildPdf at h
  split_ifs at h
  rcases hp : buildPagesGo diagrams qset.questions 0 with e | pages
  · rw [hp] at h; exact absurd h (by simp)
  · rw [hp] at h
    rcases hd : docBuildExn with _ | e
    · rw [hd] at h
      simp only [Except.ok.injEq] at h
      subst h
      exact buildPagesGo_length diagrams qset.questions 0 pages hp
    · rw [hd] at h; exact absurd h (by simp)

/-- Helper: step 3 renders one diagram list per question set. -/
theorem renderAllGo_length (w : RunWorld) (cfg : PipelineConfig) :
    ∀ (qsets : List QuestionSet) (idx : Nat),
      (renderAllGo w cfg idx qsets).length = qsets.length := by
  intro qsets
  induction qsets with
  | nil => intro idx; rfl
  | cons qs rest ih => intro idx; simp [renderAllGo, ih]

/-- Helper: a successful step 4 yields one `PatternPDF` per question
set, and the k-th PDF has one page per question of the k-th set. -/
theorem buildAllPdfsGo_pages (w : RunWorld) (cfg : PipelineConfig) :
    ∀ (qsets : List QuestionSet) (diagss : List (List (Option RenderedDiagram)))
      (idx : Nat) (pdfs : List PatternPDF),
      qsets.length = diagss.length →
      buildAllPdfsGo w cfg idx qsets diagss = .ok pdfs →
      pdfs.length = qsets.length ∧
      ∀ (k : Nat) (pdf : PatternPDF) (qs : QuestionSet),
        pdfs[k]? = some pdf → qsets[k]? = some qs →
        pdf.pages.length = qs.questions.length := by
  intro qsets
  induction qsets with
  | nil =>
    intro diagss idx pdfs _ h
    cases diagss with
    | nil =>
      simp only [buildAllPdfsGo, Except.ok.injEq] at h
      subst h
      exact ⟨rfl, by intro k pdf qs hp _; simp at hp⟩
    | cons d drest =>
      simp only [buildAllPdfsGo, Except.ok.injEq] at h
      subst h
      exact ⟨rfl, by intro k pdf qs hp _; simp at hp⟩
  | cons qs qrest ih =>
    intro diagss idx pdfs hlen h
    cases diagss with
    | nil => simp at hlen
    | cons d drest =>
      simp only [buildAllPdfsGo] at h
      rcases hp : buildPdf qs d (patternPdfPath cfg idx qs) (w.docBuildExn idx) with e | pdf
      · rw [hp] at h; exact absurd h (by simp)
      · rw [hp] at h
        dsimp only at h
        rcases hr : buildAllPdfsGo w cfg (idx + 1) qrest drest with e | rest
        · rw [hr] at h; exact absurd h (by simp)
        · rw [hr] at h
          simp only [Except.ok.injEq] at h
          subst h
          have hlen' : qrest.length = drest.length := by simpa using hlen
          obtain ⟨ihlen, ihcorr⟩ := ih drest (idx + 1) rest hlen' hr
          refine ⟨by simp [ihlen], ?_⟩
          intro k p q hpk hqk
          cases k with
          | zero =>
            simp only [List.getElem?_cons_zero, Option.some.injEq] at hpk hqk
            rw [← hpk, ← hqk]
            exact buildPdf_pages qs d (patternPdfPath cfg idx qs) (w.docBuildExn idx) pdf hp
          | succ k' =>
            simp only [List.getElem?_cons_succ] at hpk hqk
            exact ihcorr k' p q hpk hqk

/-- C4 (amended): the manifest still lists every generated instance —
one `PDFPage` per question in each pattern's `PatternPDF` — but its
`total_questions` field is the constant `10 * QUESTIONS_PER_PATTERN =
100` (and `total_patterns` the constant 10), irrespective of how many
instances the generators actually produced; `PDFPage` carries no success
flag or error string (per-render outcomes are not in the manifest). -/
theorem c4_manifest_pages_but_constant_totals
    (w : RunWorld) (cfg : PipelineConfig) (topic grade : Str) (np : Option Nat)
    (m : OutputManifest)
    (hm : pipelineRun w cfg topic grade np = .ok m) :
    m.total_questions = 100 ∧ m.total_patterns = 10 ∧
    ∃ pats qsets, w.genPatterns topic grade 10 = .ok pats ∧
      questionSetsGo w cfg topic pats.patterns = .ok qsets ∧
      m.pdfs.length = qsets.length ∧
      ∀ (k : Nat) (pdf : PatternPDF) (qs : QuestionSet),
        m.pdfs[k]? = some pdf → qsets[k]? = some qs →
        pdf.pages.length = qs.questions.length := by
  have h1 : runNumPatterns np = 10 := by cases np <;> rfl
  unfold pipelineRun at hm
  rw [h1] at hm
  dsimp only at hm
  rcases hg : w.genPatterns topic grade 10 with e | pats
  · rw [hg] at hm; exact absurd hm (by simp)
  · rw [hg] at hm
    dsimp only at hm
    rcases hq : questionSetsGo w cfg topic pats.patterns with e | qsets
    · rw [hq] at hm; exact absurd hm (by simp)
    · rw [hq] at hm
      dsimp only at hm
      rcases hb : buildAllPdfsGo w cfg 0 qsets (renderAllGo w cfg 0 qsets)
        with e | pdfs
      · rw [hb] at hm; exact absurd hm (by simp)
      · rw [hb] at hm
        simp only [Except.ok.injEq] at hm
        subst hm
        obtain ⟨hlen, hcorr⟩ := buildAllPdfsGo_pages w cfg qsets
          (renderAllGo w cfg 0 qsets) 0 pdfs (renderAllGo_length w cfg qsets 0).symm hb
        exact ⟨rfl, rfl, pats, qsets, rfl, hq, hlen, hcorr⟩

/-- C4 witness: the amended statement instantiated on the concrete
2-pattern, 3-instance run. -/
theorem c4_witness :
    (pipelineRun c4World c4Config (pstr "Coordinate Geometry") (pstr "9-12") (some 2) =
      .ok c4Manifest) ∧
    (c4Manifest.total_questions = 100 ∧ c4Manifest.total_patterns = 10 ∧
     ∃ pats qsets,
       c4World.genPatterns (pstr "Coordinate Geometry") (pstr "9-12") 10 = .ok pats ∧
       questionSetsGo c4World c4Config (pstr "Coordinate Geometry") pats.patterns = .ok qsets ∧
       c4Manifest.pdfs.length = qsets.length ∧
       ∀ (k : Nat) (pdf : PatternPDF) (qs : QuestionSet),
         c4Manifest.pdfs[k]? = some pdf → qsets[k]? = some qs →
         pdf.pages.length = qs.questions.length) :=
  ⟨rfl,
   c4_manifest_pages_but_constant_totals c4World c4Config (pstr "Coordinate Geometry")
     (pstr "9-12") (some 2) c4Manifest rfl⟩

/-- C1: the recovery entry point is claimed to return every valid
top-level JSON array of records, non-degraded, with its element count.
`c1Input` is a valid 1-record array (first conjunct), yet
`process_llm_response` raises `ValueError`: the markdown unwrap splits
the text at the fence inside the string value, leaving the unparseable
tail `"}]` for every strategy. -/
theorem c1_valid_array_rejected :
    jsonLoads c1Input = .ok (.jarr [.jobj [(pstr "a", .jstr (pstr "```"))]]) ∧
    process_llm_response c1Input =
      .err (pstr "Invalid JSON response from LLM: Unterminated string") :=
  ⟨rfl, rfl⟩

/-- C6 (counterexample): on the non-blank input `xyz` every strategy
fails and the entry point raises, but the error value does not carry the
first 500 characters of the input (here the whole input `xyz`): it
carries the strict-parse failure description instead. -/
theorem c6_error_lacks_input_excerpt :
    pyStrip c6Input ≠ [] ∧
    parse_json_response c6Input =
      .err (pstr "Invalid JSON response from LLM: Expecting value") ∧
    hasSub (pstr "Invalid JSON response from LLM: Expecting value")
      (c6Input.take 500) = false :=
  ⟨by decide, rfl, rfl⟩

/-- C6 (amended): when the input is non-blank, the TikZ pre-fix
terminates, and every strategy in the chain fails, `parse_json_response`
raises a `ValueError` whose message is `"Invalid JSON response from
LLM: "` followed by the strict-parse error; the 500-character input
excerpt is only logged, not carried by the error value. -/
theorem c6_all_strategies_fail_raises_parse_error
    (t t' e1 e2 e3 e4 e5 : Str)
    (hb : ¬ pyStrip t = [])
    (hfix : fix_tikz_json_parsing t = some t')
    (h1 : jsonLoads t' = .error e1)
    (h2 : json5Loads t' = .error e2)
    (h3 : json5Loads (extract_json_from_markdown (clean_response_text t')) = .error e3)
    (h4 : json5Loads (manually_fix_tikz_quotes t') = .error e4)
    (h5 : reconstruct_json_from_partial t' = .error e5) :
    parse_json_response t = .err (pstr "Invalid JSON response from LLM: " ++ e1) := by
  unfold parse_json_response
  rw [if_neg hb]
  simp only [hfix, h1, h2, h3, h4, h5]

/-- C6 witness: the amended statement instantiated at `xyz`, with every
strategy's failure discharged by computation. -/
theorem c6_witness :
    ((¬ pyStrip c6Input = []) ∧
     fix_tikz_json_parsing c6Input = some c6Input ∧
     jsonLoads c6Input = .error (pstr "Expecting value") ∧
     json5Loads c6Input = .error (pstr "Expecting value") ∧
     json5Loads (extract_json_from_markdown (clean_response_text c6Input)) =
       .error (pstr "Expecting value") ∧
     json5Loads (manually_fix_tikz_quotes c6Input) = .error (pstr "Expecting value") ∧
     reconstruct_json_from_partial c6Input =
       .error (pstr "Failed to reconstruct any valid JSON from response")) ∧
    parse_json_response c6Input =
      .err (pstr "Invalid JSON response from LLM: " ++ pstr "Expecting value") :=
  ⟨⟨by decide, rfl, rfl, rfl, rfl, rfl, rfl⟩,
   c6_all_strategies_fail_raises_parse_error c6Input c6Input
     (pstr "Expecting value") (pstr "Expecting value") (pstr "Expecting value")
     (pstr "Expecting value")
     (pstr "Failed to reconstruct any valid JSON from response")
     (by decide) rfl rfl rfl rfl rfl rfl⟩
